import Mathlib

/-!
Shallow embedding of the manifest validation and auto-fix pipeline of
`scripts/validate_all.py` (repository chkim-su/skillmaker).

Conventions of the embedding:
* JSON documents are modelled by the inductive type `J` (null, bool, string,
  array, object); numbers do not occur in the validated fields.
* Python `dict.get(k, d)` is `J.getD`, dict assignment is `J.setKey`
  (insertion order preserving, as CPython dicts are).
* The file system is a pair of association lists: files (path, content)
  and directories, with paths as component lists relative to the plugin
  root.  Model states are kept under the invariant that every directory,
  including parents of files, is listed in `dirs`.
* Python set iteration order is unspecified; where the source iterates a
  set literal we fix the literal insertion order, and where it formats a
  set into a message we use sorted order.  No claim depends on these.
* Messages are reproduced from the source f-strings, with single quotes
  rendered as double quotes.
* `re.search(r"\.md$", s)` is `strEndsWith s ".md"` (no path contains a
  newline), `re.match(r"^\./", s)` is `strStartsWith s "./"`.
-/

/-- JSON values, as far as the validator inspects them. -/
inductive J where
  | null : J
  | bool : Bool → J
  | str : String → J
  | arr : List J → J
  | obj : List (String × J) → J
deriving Repr, Inhabited

/-- Lookup of a key in a JSON object (Python `d[k]` / `d.get(k)`). -/
def J.lookup : J → String → Option J
  | .obj fs, k => List.lookup k fs
  | _, _ => none

/-- Python `d.get(k, default)`. -/
def J.getD (j : J) (k : String) (d : J) : J := (j.lookup k).getD d

/-- Python `k in d` for a JSON object. -/
def J.hasKey (j : J) (k : String) : Bool := (j.lookup k).isSome

/-- The keys of a JSON object in insertion order. -/
def J.keys : J → List String
  | .obj fs => fs.map (·.1)
  | _ => []

/-- Replace the value of a key, or append it (CPython dict assignment). -/
def setFields (fs : List (String × J)) (k : String) (v : J) : List (String × J) :=
  match fs with
  | [] => [(k, v)]
  | (k', v') :: rest => if k' = k then (k, v) :: rest else (k', v') :: setFields rest k v

/-- `d[k] = v` on a JSON object (other values unchanged). -/
def J.setKey : J → String → J → J
  | .obj fs, k, v => .obj (setFields fs k v)
  | j, _, _ => j

/-- `del d[k]` / `d.pop(k, None)` on a JSON object. -/
def J.delKey : J → String → J
  | .obj fs, k => .obj (fs.filter (fun e => e.1 ≠ k))
  | j, _ => j

/-- Python `"x" == v` for a JSON value `v` (used for `in` on string lists). -/
def J.isStrVal (j : J) (s : String) : Bool :=
  match j with
  | .str t => t = s
  | _ => false

/-- The string entries of a JSON array.  The source iterates such lists with
string methods directly; non-string entries (which would raise in Python)
are outside the modelled state space and are skipped. -/
def J.strList (j : J) : List String :=
  match j with
  | .arr xs => xs.filterMap (fun v => match v with | .str s => some s | _ => none)
  | _ => []

/-- The array entries of a JSON value, `[]` for anything that is not an array
(matching `plugin.get(k, [])` on well-typed manifests). -/
def J.arrList (j : J) : List J :=
  match j with
  | .arr xs => xs
  | _ => []

-- ---------------------------------------------------------------------------
-- String helpers mirroring the Python string operations used by the source.
-- ---------------------------------------------------------------------------

/-- Split a character list at a separator character (Python `s.split(sep)`
for a one-character separator; all separators in the source are one
character).  Structural recursion, so the kernel can evaluate it. -/
def splitOnChar (sep : Char) : List Char → List (List Char)
  | [] => [[]]
  | c :: rest =>
    if c = sep then [] :: splitOnChar sep rest
    else
      match splitOnChar sep rest with
      | [] => [[c]]
      | w :: ws => (c :: w) :: ws

def pySplit (sep : Char) (s : String) : List String :=
  (splitOnChar sep s.data).map String.mk

/-- Python `s.startswith(p)`. -/
def strStartsWith (s p : String) : Bool := List.isPrefixOf p.data s.data

/-- Python `s.endswith(p)` (and `re.search(r"...$")` on newline-free input). -/
def strEndsWith (s p : String) : Bool := List.isSuffixOf p.data s.data

/-- Python `s.replace(pat, rep)` for a nonempty pattern: replace all
occurrences left to right without overlap.  The fuel (the input length)
always suffices, since every step consumes at least one character. -/
def pyReplaceAux (pat rep : List Char) : Nat → List Char → List Char
  | _, [] => []
  | 0, l => l
  | fuel + 1, c :: rest =>
    if pat.isPrefixOf (c :: rest) then
      rep ++ pyReplaceAux pat rep fuel ((c :: rest).drop pat.length)
    else c :: pyReplaceAux pat rep fuel rest

def pyReplace (s pat rep : String) : String :=
  String.mk (pyReplaceAux pat.data rep.data s.data.length s.data)

/-- Python `c in s` for a single character. -/
def strContainsChar (s : String) (c : Char) : Bool := s.data.any (fun d => d = c)

/-- Python `s[:-n]` / `Path.stem` style suffix removal. -/
def strDropRight (s : String) (n : Nat) : String :=
  String.mk (s.data.take (s.data.length - n))

/-- Python `sep.join(l)`. -/
def joinSep (sep : String) : List String → String
  | [] => ""
  | x :: xs => xs.foldl (fun a b => a ++ sep ++ b) x

/-- Python `s.lstrip("./")`: strip all leading characters drawn from `.` and `/`. -/
def lstripDotSlash (s : String) : String :=
  String.mk (s.data.dropWhile (fun c => c = '.' || c = '/'))

/-- Python `s.rstrip("/")`: strip all trailing `/` characters. -/
def rstripSlash (s : String) : String :=
  String.mk (s.data.reverse.dropWhile (fun c => c = '/') |>.reverse)

/-- Python `s.lower()` restricted to ASCII (names in manifests are ASCII). -/
def pyLower (s : String) : String := String.mk (s.data.map Char.toLower)

def isLowerAlpha (c : Char) : Bool := 'a' ≤ c && c ≤ 'z'

def isLowerAlnum (c : Char) : Bool := isLowerAlpha c || ('0' ≤ c && c ≤ '9')

/-- The regex `^[a-z][a-z0-9]*(-[a-z0-9]+)*$` (SCHEMA["kebab_case"]). -/
def kebabCase (s : String) : Bool :=
  match pySplit '-' s with
  | [] => false
  | first :: rest =>
    (match first.data with
     | [] => false
     | c :: cs => isLowerAlpha c && cs.all isLowerAlnum)
    && rest.all (fun seg => !seg.data.isEmpty && seg.data.all isLowerAlnum)

/-- The regex `^[^/]+/[^/]+$` (SCHEMA["repo_format"]). -/
def repoFormat (s : String) : Bool :=
  match pySplit '/' s with
  | [a, b] => !a.isEmpty && !b.isEmpty
  | _ => false

/-- The regex `^https?://` (SCHEMA["url_format"]), via `re.match`. -/
def urlFormat (s : String) : Bool :=
  strStartsWith s "http://" || strStartsWith s "https://"

/-- Insertion sort on strings: model for Python `sorted` on string sets. -/
def insertSorted (x : String) : List String → List String
  | [] => [x]
  | y :: ys => if x ≤ y then x :: y :: ys else y :: insertSorted x ys

def sortStrings : List String → List String
  | [] => []
  | x :: xs => insertSorted x (sortStrings xs)

-- ---------------------------------------------------------------------------
-- Error codes (class ErrorCode) and issue/fix data model.
-- ---------------------------------------------------------------------------

def E001 : String := "E001"
def E002 : String := "E002"
def E003 : String := "E003"
def E004 : String := "E004"
def E005 : String := "E005"
def E006 : String := "E006"
def E007 : String := "E007"
def E008 : String := "E008"
def E009 : String := "E009"
def E011 : String := "E011"
def E012 : String := "E012"
def E013 : String := "E013"
def E014 : String := "E014"
def E015 : String := "E015"

/-- `format_error(code, message)`. -/
def format_error (code msg : String) : String := "[" ++ code ++ "] " ++ msg

/-- A file-system path relative to the plugin root, as components. -/
abbrev FPath := List String

/-- The remediation actions the embedded validators construct
(class `Fix` holds a bound fix function plus arguments; here the binding is
made explicit as one constructor per fix function). -/
inductive FixAction where
  | addToMarketplace (itemType itemPath : String)
  | pathFormat (itemType oldPath newPath : String)
  | sourcePath (idx : Nat) (newSource : String)
  | githubSourceFormat (idx : Nat)
  | repositoryToString (idx : Nat)
  | skillStructure (skillPath : String)
  | skillsComplete
  | moveComponentToRoot (componentType : String)
  | createCommandStub (path : FPath) (name : String)
  | createAgentStub (path : FPath) (name : String)
  | createSkillStub (dir : FPath) (name : String)
deriving Repr, DecidableEq

/-- One fixable issue: description plus the bound action (class `Fix`). -/
structure FixT where
  description : String
  action : FixAction
deriving Repr, DecidableEq

/-- class ValidationResult. -/
structure VR where
  errors : List String := []
  warnings : List String := []
  passed : List String := []
  fixes : List FixT := []
deriving Repr, DecidableEq

def VR.merge (a b : VR) : VR :=
  ⟨a.errors ++ b.errors, a.warnings ++ b.warnings, a.passed ++ b.passed, a.fixes ++ b.fixes⟩

def VR.mergeAll (l : List VR) : VR := l.foldl VR.merge {}

def VR.err (msg : String) : VR := { errors := [msg] }

def VR.errFix (msg : String) (f : FixT) : VR := { errors := [msg], fixes := [f] }

def VR.warn (msg : String) : VR := { warnings := [msg] }

def VR.pass (msg : String) : VR := { passed := [msg] }

-- ---------------------------------------------------------------------------
-- Schema tables (ALLOWED_FIELDS, REQUIRED_FIELDS, FORBIDDEN_FIELDS,
-- RESERVED_NAMES), in source-literal insertion order.
-- ---------------------------------------------------------------------------

def ALLOWED_FIELDS_marketplace : List String :=
  ["$schema", "name", "owner", "plugins", "description", "version", "homepage", "metadata"]

def ALLOWED_FIELDS_owner : List String := ["name", "email", "url"]

def ALLOWED_FIELDS_plugin : List String :=
  ["name", "source", "description", "version", "author", "homepage",
   "repository", "license", "keywords", "category", "tags", "strict",
   "commands", "agents", "skills", "hooks", "mcpServers", "lspServers"]

def REQUIRED_FIELDS_marketplace : List String := ["name", "owner", "plugins"]

def REQUIRED_FIELDS_plugin : List String := ["name", "source"]

def FORBIDDEN_FIELDS_plugin : List String := ["components", "repo"]

def RESERVED_NAMES : List String :=
  ["claude-code-marketplace", "claude-plugins-official", "anthropic-marketplace",
   "anthropic-plugins", "claude-code-plugins", "agent-skills", "life-sciences"]

-- ---------------------------------------------------------------------------
-- validate_source_schema (lines 702-768).
-- ---------------------------------------------------------------------------

/-- `validate_source_schema(source, prefix, marketplace_path, plugin_idx)`. -/
def validate_source_schema (source : J) (pre : String) (plugin_idx : Nat) : VR :=
  match source with
  | .null => VR.err (format_error E014 (pre ++ ".source is empty/null"))
  | .str s =>
    if s = "" then VR.err (format_error E014 (pre ++ ".source is empty/null"))
    else if s = "github" || s = "url" then
      VR.errFix
        (format_error E005 (pre ++ ".source is \"" ++ s ++ "\" but must be object. " ++
          "Use: \"source\": \x7b\"source\": \"" ++ s ++ "\", \"repo\": \"owner/repo\"\x7d"))
        ⟨"Fix " ++ pre ++ " source format", .githubSourceFormat plugin_idx⟩
    else if s = "." then
      VR.errFix
        (format_error E011 (pre ++ ".source is \".\" but must be \"./\""))
        ⟨"Fix " ++ pre ++ ".source to \"./\"", .sourcePath plugin_idx "./"⟩
    else if !strStartsWith s "./" then
      VR.errFix
        (format_error E011 (pre ++ ".source \"" ++ s ++ "\" must start with \"./\""))
        ⟨"Fix " ++ pre ++ ".source path", .sourcePath plugin_idx ("./" ++ s)⟩
    else {}
  | .obj _ =>
    if source.hasKey "type" && !source.hasKey "source" then
      VR.err (format_error E006 (pre ++ ".source uses \"type\" key. Must use \"source\" key. " ++
        "Correct: \x7b\"source\": \"github\", \"repo\": \"...\"\x7d"))
    else if !source.hasKey "source" then
      VR.err (format_error E014 (pre ++ ".source object missing \"source\" key"))
    else
      match source.lookup "source" with
      | some (.str "github") =>
        if !source.hasKey "repo" then
          VR.err (format_error E014 (pre ++ ".source.repo is required for GitHub source"))
        else if !repoFormat (jStrOf (source.getD "repo" (.str ""))) then
          VR.err (format_error E015 (pre ++ ".source.repo must be \"owner/repo\" format"))
        else {}
      | some (.str "url") =>
        if !source.hasKey "url" then
          VR.err (format_error E014 (pre ++ ".source.url is required for URL source"))
        else if !urlFormat (jStrOf (source.getD "url" (.str ""))) then
          VR.err (format_error E015 (pre ++ ".source.url must be http:// or https://"))
        else {}
      | some v =>
        VR.err (format_error E015 (pre ++ ".source.source must be \"github\" or \"url\", got \"" ++
          jShow v ++ "\""))
      | none => {}
  | _ =>
    VR.err (format_error E014 (pre ++ ".source must be string or object, got " ++ jTypeName source))
where
  /-- Python `str(x)` on the values the source feeds to the regexes
  (strings pass through unchanged; other shapes do not occur here). -/
  jStrOf : J → String
    | .str s => s
    | _ => ""
  /-- Rendering of the offending value into the E015 message (`{source_type}`). -/
  jShow : J → String
    | .str s => s
    | .null => "None"
    | .bool true => "True"
    | .bool false => "False"
    | _ => "object"
  /-- Python `type(x).__name__`. -/
  jTypeName : J → String
    | .null => "NoneType"
    | .bool _ => "bool"
    | .str _ => "str"
    | .arr _ => "list"
    | .obj _ => "dict"

-- ---------------------------------------------------------------------------
-- validate_path_arrays (lines 771-838).
-- ---------------------------------------------------------------------------

/-- One entry of the `commands` array (lines 776-787). -/
def checkCommandEntry (pre : String) (i : Nat) (cmd : J) : VR :=
  match cmd with
  | .str c =>
    VR.merge
      (if !strStartsWith c "./" then
        VR.err (format_error E011 (pre ++ ".commands[" ++ toString i ++ "] \"" ++ c ++ "\" must start with \"./\""))
      else {})
      (if !strEndsWith c ".md" then
        VR.errFix
          (format_error E003 (pre ++ ".commands[" ++ toString i ++ "] \"" ++ c ++ "\" must end with .md"))
          ⟨"Fix path to \"" ++ (c ++ ".md") ++ "\"", .pathFormat "commands" c (c ++ ".md")⟩
      else {})
  | _ => VR.err (format_error E014 (pre ++ ".commands[" ++ toString i ++ "] must be string"))

/-- One entry of the `agents` array (lines 790-801). -/
def checkAgentEntry (pre : String) (i : Nat) (agent : J) : VR :=
  match agent with
  | .str a =>
    VR.merge
      (if !strStartsWith a "./" then
        VR.err (format_error E011 (pre ++ ".agents[" ++ toString i ++ "] \"" ++ a ++ "\" must start with \"./\""))
      else {})
      (if !strEndsWith a ".md" then
        VR.errFix
          (format_error E004 (pre ++ ".agents[" ++ toString i ++ "] \"" ++ a ++ "\" must end with .md"))
          ⟨"Fix path to \"" ++ (a ++ ".md") ++ "\"", .pathFormat "agents" a (a ++ ".md")⟩
      else {})
  | _ => VR.err (format_error E014 (pre ++ ".agents[" ++ toString i ++ "] must be string"))

/-- One entry of the `skills` array (lines 804-817). -/
def checkSkillEntry (pre : String) (i : Nat) (skill : J) : VR :=
  match skill with
  | .str s =>
    VR.merge
      (if !strStartsWith s "./" then
        VR.err (format_error E011 (pre ++ ".skills[" ++ toString i ++ "] \"" ++ s ++ "\" must start with \"./\""))
      else {})
      (if strEndsWith s ".md" then
        let correct := rstripSlash ((pyReplace s ".md" ""))
        VR.errFix
          (format_error E002 (pre ++ ".skills[" ++ toString i ++ "] \"" ++ s ++ "\" has .md extension. " ++
            "Skills are directories, not files."))
          ⟨"Fix path to \"" ++ correct ++ "\"", .pathFormat "skills" s correct⟩
      else {})
  | _ => VR.err (format_error E014 (pre ++ ".skills[" ++ toString i ++ "] must be string"))

/-- The `hooks` field (lines 820-836): a single path string ending in .json. -/
def checkHooksField (pre : String) (hooks : Option J) : VR :=
  match hooks with
  | none => {}
  | some (.str h) =>
    VR.merge
      (if !strStartsWith h "./" then
        VR.err (format_error E011 (pre ++ ".hooks \"" ++ h ++ "\" must start with \"./\""))
      else {})
      (if !strEndsWith h ".json" then
        VR.err (format_error E014 (pre ++ ".hooks must end with \".json\" (e.g., \"./hooks/hooks.json\")"))
      else {})
  | some (.arr _) =>
    VR.err (format_error E014 (pre ++ ".hooks must be string path, not array. " ++
      "Use: \"hooks\": \"./hooks/hooks.json\""))
  | some _ => VR.err (format_error E014 (pre ++ ".hooks must be string path"))

/-- `validate_path_arrays(plugin, prefix, marketplace_path)`. -/
def validate_path_arrays (plugin : J) (pre : String) : VR :=
  VR.mergeAll
    [VR.mergeAll (((plugin.getD "commands" (.arr [])).arrList).enum.map
        (fun e => checkCommandEntry pre e.1 e.2)),
     VR.mergeAll (((plugin.getD "agents" (.arr [])).arrList).enum.map
        (fun e => checkAgentEntry pre e.1 e.2)),
     VR.mergeAll (((plugin.getD "skills" (.arr [])).arrList).enum.map
        (fun e => checkSkillEntry pre e.1 e.2)),
     checkHooksField pre (plugin.lookup "hooks")]

-- ---------------------------------------------------------------------------
-- validate_schema_static (lines 572-699).
-- ---------------------------------------------------------------------------

/-- Python truthiness of a JSON value (`if owner:`, `if skills:`, ...). -/
def J.truthy : J → Bool
  | .null => false
  | .bool b => b
  | .str s => !s.isEmpty
  | .arr xs => !xs.isEmpty
  | .obj fs => !fs.isEmpty

/-- The string value of a JSON value, `""` otherwise (for fields the source
reads with `data.get(k, "")` and then treats as strings). -/
def jStr : J → String
  | .str s => s
  | _ => ""

/-- Result of loading the manifest file: missing, unparseable, or parsed.
The parsed document is an object in every modelled state (a non-object
top level would raise in the source before validation completes). -/
inductive MLoad where
  | absent
  | badJSON (emsg : String)
  | ok (data : J)
deriving Repr

/-- Marketplace-root required/unrecognized field checks (lines 594-604). -/
def checkMarketplaceRootFields (data : J) : VR :=
  VR.merge
    (VR.mergeAll (REQUIRED_FIELDS_marketplace.map (fun f =>
      if !data.hasKey f then
        VR.err (format_error E014 ("Missing required field: \"" ++ f ++ "\""))
      else {})))
    (let unrecognized := data.keys.filter (fun k => !ALLOWED_FIELDS_marketplace.contains k)
     if !unrecognized.isEmpty then
       VR.err (format_error E013 ("Unrecognized field(s) at marketplace root: " ++
         joinSep ", " (sortStrings unrecognized)))
     else {})

/-- Marketplace `name` validation (lines 607-616). -/
def checkMarketplaceName (data : J) : VR :=
  let name := jStr (data.getD "name" (.str ""))
  if name ≠ "" then
    if RESERVED_NAMES.contains (pyLower name) then
      VR.err (format_error E015 ("Reserved name: \"" ++ name ++ "\""))
    else if strContainsChar name ' ' then
      VR.err (format_error E015 ("Name contains spaces: \"" ++ name ++ "\" (use kebab-case)"))
    else if !kebabCase name && !RESERVED_NAMES.contains name then
      VR.warn ("Name \"" ++ name ++ "\" is not kebab-case (recommended: lowercase-with-hyphens)")
    else {}
  else VR.err (format_error E014 "Missing \"name\" field")

/-- Owner validation (lines 619-628).  An absent or falsy owner is skipped
(the required-field loop reports the absence). -/
def checkOwner (data : J) : VR :=
  match data.lookup "owner" with
  | none => {}
  | some owner =>
    if !owner.truthy then {}
    else match owner with
      | .obj _ =>
        VR.merge
          (if !owner.hasKey "name" then
            VR.err (format_error E014 "owner.name is required")
          else {})
          (let unrec := owner.keys.filter (fun k => !ALLOWED_FIELDS_owner.contains k)
           if !unrec.isEmpty then
             VR.err (format_error E013 ("Unrecognized owner field(s): \x7b" ++
               joinSep ", " (sortStrings unrec) ++ "\x7d"))
           else {})
      | _ => VR.err (format_error E014 "\"owner\" must be an object")

/-- One plugin entry of the `plugins` array (lines 643-697). -/
def checkPluginEntry (i : Nat) (plugin : J) : VR :=
  let pre := "plugins[" ++ toString i ++ "]"
  match plugin with
  | .obj _ =>
    VR.mergeAll
      [VR.mergeAll (REQUIRED_FIELDS_plugin.map (fun f =>
         if !plugin.hasKey f then
           VR.err (format_error E014 (pre ++ "." ++ f ++ " is required"))
         else {})),
       (let unrec := plugin.keys.filter (fun k => !ALLOWED_FIELDS_plugin.contains k)
        if !unrec.isEmpty then
          VR.err (format_error E013 (pre ++ ": Unrecognized field(s): " ++
            joinSep ", " (sortStrings unrec)))
        else {}),
       VR.mergeAll (FORBIDDEN_FIELDS_plugin.map (fun f =>
         if plugin.hasKey f then
           if f = "repo" then
             VR.errFix
               (format_error E007 (pre ++ ".repo is at plugin level. " ++
                 "Move into source: \"source\": \x7b\"source\": \"github\", \"repo\": \"...\"\x7d"))
               ⟨"Fix " ++ pre ++ " GitHub source format", .githubSourceFormat i⟩
           else
             VR.err (format_error E013 (pre ++
               ".components is not valid. Use commands/agents/skills arrays."))
         else {})),
       (match plugin.lookup "source" with
        | some .null => {}
        | none => {}
        | some v => validate_source_schema v pre i),
       validate_path_arrays plugin pre,
       (match plugin.lookup "repository" with
        | some (.obj _) =>
          VR.errFix
            (format_error E008 (pre ++ ".repository must be string URL, not object"))
            ⟨"Fix " ++ pre ++ ".repository format", .repositoryToString i⟩
        | _ => {})]
  | _ => VR.err (format_error E014 (pre ++ " must be an object"))

/-- `validate_schema_static(plugin_root, marketplace_path)`: the pure Phase-0
schema validation, a function of the manifest document alone. -/
def validate_schema_static (m : MLoad) : VR :=
  match m with
  | .absent => VR.err (format_error E014 "marketplace.json not found")
  | .badJSON e => VR.err (format_error E014 ("Invalid JSON: " ++ e))
  | .ok data =>
    let rootVR := VR.mergeAll [checkMarketplaceRootFields data, checkMarketplaceName data, checkOwner data]
    match data.getD "plugins" (.arr []) with
    | .arr [] => rootVR.merge (VR.err (format_error E014 "\"plugins\" array is empty"))
    | .arr ps => rootVR.merge (VR.mergeAll (ps.enum.map (fun e => checkPluginEntry e.1 e.2)))
    | _ => rootVR.merge (VR.err (format_error E014 "\"plugins\" must be an array"))

-- ---------------------------------------------------------------------------
-- File-system model.
-- ---------------------------------------------------------------------------

/-- The plugin tree: files with contents, plus the directories.  Invariant of
all modelled states: every directory, including every parent of a file,
appears in `dirs`, and file paths are distinct. -/
structure FS where
  files : List (FPath × String)
  dirs : List FPath
deriving Repr, DecidableEq

def FS.fileContent (fs : FS) (p : FPath) : Option String := List.lookup p fs.files

def FS.isFile (fs : FS) (p : FPath) : Bool := (fs.fileContent p).isSome

def FS.isDir (fs : FS) (p : FPath) : Bool := fs.dirs.contains p

def FS.pathExists (fs : FS) (p : FPath) : Bool := fs.isFile p || fs.isDir p

/-- Replace or create a file (Python `write_text`). -/
def setFile (l : List (FPath × String)) (p : FPath) (c : String) : List (FPath × String) :=
  match l with
  | [] => [(p, c)]
  | (p', c') :: rest => if p' = p then (p, c) :: rest else (p', c') :: setFile rest p c

def FS.writeFile (fs : FS) (p : FPath) (c : String) : FS :=
  { fs with files := setFile fs.files p c }

/-- Python `unlink`. -/
def FS.removeFile (fs : FS) (p : FPath) : FS :=
  { fs with files := fs.files.filter (fun e => e.1 ≠ p) }

/-- All nonempty ancestor paths of `p`, `p` included, shortest first. -/
def pathInits (p : FPath) : List FPath :=
  (List.range p.length).map (fun k => p.take (k + 1))

/-- Python `mkdir(parents=True, exist_ok=True)`. -/
def FS.mkdirp (fs : FS) (p : FPath) : FS :=
  { fs with dirs := (pathInits p).foldl (fun ds q => if ds.contains q then ds else ds ++ [q]) fs.dirs }

/-- Remove a directory entry (Python `rmdir`). -/
def FS.removeDir (fs : FS) (p : FPath) : FS :=
  { fs with dirs := fs.dirs.filter (fun q => q ≠ p) }

/-- `some n` when `p = d ++ [n]`, i.e. `p` is a direct child of `d`. -/
def under1? : FPath → FPath → Option String
  | [], [n] => some n
  | a :: d', b :: p' => if a = b then under1? d' p' else none
  | _, _ => none

/-- Names of the direct children of `d` (Python `iterdir`; files first,
then directories — `iterdir` order is OS-dependent and no claim uses it). -/
def FS.childNames (fs : FS) (d : FPath) : List String :=
  fs.files.filterMap (fun e => under1? d e.1) ++ fs.dirs.filterMap (under1? d)

/-- Names of the direct child directories of `d`
(`{d.name for d in skills_dir.iterdir() if d.is_dir()}`). -/
def FS.childDirNames (fs : FS) (d : FPath) : List String :=
  fs.dirs.filterMap (under1? d)

/-- `Path.suffix == ".md"`: the name ends in `.md` and has a nonempty stem
(`Path(".md").suffix` is `""` in Python). -/
def hasMdSuffix (n : String) : Bool := strEndsWith n ".md" && n ≠ ".md"

/-- Drop the `.md` extension from a name (Python `stem` / `with_suffix("")`
under the `suffix == ".md"` guard). -/
def mdStem (n : String) : String := strDropRight n 3

/-- `commands_dir.glob("*.md")` stems, in file-list order. -/
def FS.globMdStems (fs : FS) (d : FPath) : List String :=
  fs.files.filterMap (fun e =>
    match under1? d e.1 with
    | some n => if strEndsWith n ".md" then some (mdStem n) else none
    | none => none)

/-- Split a (already `lstrip`-normalized) path string into components
(`Path` division by a string containing slashes). -/
def splitPath (s : String) : FPath := pySplit '/' s

/-- The last component of a path. -/
def lastComp (p : FPath) : String := p.getLastD ""

/-- Relocate the subtree at `src` to `dst` (`shutil.move` of a directory). -/
def replaceRoot (src dst p : FPath) : FPath :=
  if src.isPrefixOf p then dst ++ p.drop src.length else p

def FS.relocate (fs : FS) (src dst : FPath) : FS :=
  { files := fs.files.map (fun e => (replaceRoot src dst e.1, e.2)),
    dirs := fs.dirs.map (replaceRoot src dst) }

-- ---------------------------------------------------------------------------
-- Fix functions over the manifest document (lines 238-272, 362-419, 841-853).
-- A `none` result models the fix raising an exception (caught by Fix.apply,
-- which then reports the fix as failed and leaves the state unchanged:
-- every raise point precedes the single final write of the document).
-- ---------------------------------------------------------------------------

/-- Option-valued map over a list, aborting at the first `none`
(a raised exception stops the loop before the document is written back). -/
def mapMO (f : α → Option β) : List α → Option (List β)
  | [] => some []
  | a :: as =>
    match f a, mapMO f as with
    | some b, some bs => some (b :: bs)
    | _, _ => none

/-- The per-plugin body of `fix_add_to_marketplace`: ensure the item list
exists, then append the normalized path unless already present. -/
def addItemToPlugin (itemType norm : String) (plugin : J) : Option J :=
  match plugin with
  | .obj _ =>
    let p := if plugin.hasKey itemType then plugin else plugin.setKey itemType (.arr [])
    match p.lookup itemType with
    | some (.arr items) =>
      if items.any (fun v => v.isStrVal norm) then some p
      else some (p.setKey itemType (.arr (items ++ [.str norm])))
    | _ => none
  | _ => none

/-- `fix_add_to_marketplace(marketplace_path, item_type, item_path)`
(lines 238-255).  With no `plugins` key the document itself is the plugin
(`data.get("plugins", [data])` aliases `data`). -/
def fix_add_to_marketplace (data : J) (itemType itemPath : String) : Option J :=
  let norm := if strStartsWith itemPath "./" then itemPath else "./" ++ itemPath
  match data.lookup "plugins" with
  | some (.arr ps) =>
    (mapMO (addItemToPlugin itemType norm) ps).map (fun qs => data.setKey "plugins" (.arr qs))
  | some _ => none
  | none => addItemToPlugin itemType norm data

/-- Replace the first matching entry of an item list (`fix_path_format` inner
loop, with its `break`).  A non-string entry before the match raises. -/
def replaceFirstPath (oldPath newPath : String) : List J → Option (List J)
  | [] => some []
  | .str item :: rest =>
    if rstripSlash item = rstripSlash oldPath || item = oldPath then
      some (.str newPath :: rest)
    else (replaceFirstPath oldPath newPath rest).map (.str item :: ·)
  | _ :: _ => none

/-- The per-plugin body of `fix_path_format`: mutate the aliased list in
place; an absent key leaves the plugin unchanged. -/
def pathFormatPlugin (itemType oldPath newPath : String) (plugin : J) : Option J :=
  match plugin.lookup itemType with
  | some (.arr items) =>
    (replaceFirstPath oldPath newPath items).map (fun items' => plugin.setKey itemType (.arr items'))
  | some _ => none
  | none => some plugin

/-- `fix_path_format(marketplace_path, item_type, old_path, new_path)`
(lines 386-399). -/
def fix_path_format (data : J) (itemType oldPath newPath : String) : Option J :=
  match data.lookup "plugins" with
  | some (.arr ps) =>
    (mapMO (pathFormatPlugin itemType oldPath newPath) ps).map
      (fun qs => data.setKey "plugins" (.arr qs))
  | some _ => none
  | none => pathFormatPlugin itemType oldPath newPath data

/-- `plugins = data.get("plugins", [data]); if plugin_idx < len(plugins):
mutate plugins[plugin_idx]` — shared shape of the indexed fixes. -/
def onPluginIdx (data : J) (idx : Nat) (f : J → Option J) : Option J :=
  match data.lookup "plugins" with
  | some (.arr ps) =>
    if idx < ps.length then
      match ps.get? idx with
      | some p => (f p).map (fun q => data.setKey "plugins" (.arr (ps.set idx q)))
      | none => some data
    else some data
  | some _ => none
  | none => if idx = 0 then f data else some data

/-- `fix_source_path` (lines 362-370). -/
def fix_source_path (data : J) (idx : Nat) (newSource : String) : Option J :=
  onPluginIdx data idx (fun p =>
    match p with
    | .obj _ => some (p.setKey "source" (.str newSource))
    | _ => none)

/-- The per-plugin body of `fix_github_source_format` (lines 402-419):
pop `repo`, and when `source` is the bare string `github`/`url`, replace it
by the tagged object (placeholder repo `OWNER/REPO` when none was present). -/
def githubSourceFormatPlugin (plugin : J) : Option J :=
  match plugin with
  | .obj _ =>
    let source := plugin.getD "source" (.str "")
    let repo? := plugin.lookup "repo"
    let p := plugin.delKey "repo"
    match source with
    | .str s =>
      if s = "github" || s = "url" then
        match repo? with
        | some r =>
          if r.truthy then some (p.setKey "source" (.obj [("source", .str s), ("repo", r)]))
          else some (p.setKey "source" (.obj [("source", .str s), ("repo", .str "OWNER/REPO")]))
        | none => some (p.setKey "source" (.obj [("source", .str s), ("repo", .str "OWNER/REPO")]))
      else some p
    | _ => some p
  | _ => none

def fix_github_source_format (data : J) (idx : Nat) : Option J :=
  onPluginIdx data idx githubSourceFormatPlugin

/-- The per-plugin body of `fix_repository_to_string` (lines 841-853). -/
def repositoryToStringPlugin (plugin : J) : Option J :=
  match plugin with
  | .obj _ =>
    match plugin.lookup "repository" with
    | some (.obj fs) => some (plugin.setKey "repository" ((J.obj fs).getD "url" (.str "")))
    | _ => some plugin
  | _ => none

def fix_repository_to_string (data : J) (idx : Nat) : Option J :=
  onPluginIdx data idx repositoryToStringPlugin

-- ---------------------------------------------------------------------------
-- Fix functions over the file system (lines 275-330, 443-565).
-- ---------------------------------------------------------------------------

/-- Lowercase a word and capitalize its first letter (one word of
Python `str.title()`). -/
def pyCapitalizeLower (w : String) : String :=
  match w.data.map Char.toLower with
  | [] => ""
  | c :: cs => String.mk (c.toUpper :: cs)

/-- Python `str.title()` on names whose hyphens were replaced by spaces. -/
def pyTitle (s : String) : String :=
  joinSep " " ((pySplit ' ' s).map pyCapitalizeLower)

/-- Stub content of `fix_create_command_stub` (lines 277-286). -/
def commandStubContent (name : String) : String :=
  "---\ndescription: TODO: Add description for " ++ name ++
  "\nargument-hint: \"[optional args]\"\nallowed-tools: [\"Read\", \"Write\", \"Bash\", \"Grep\", \"Glob\"]\n---\n\n# " ++
  pyTitle ((pyReplace name "-" " ")) ++ "\n\nTODO: Add command instructions here.\n"

/-- Stub content of `fix_create_agent_stub` (lines 293-303). -/
def agentStubContent (name : String) : String :=
  "---\nname: " ++ name ++ "\ndescription: TODO: Add description for " ++ name ++
  "\ntools: [\"Read\", \"Write\", \"Bash\", \"Grep\", \"Glob\"]\nmodel: sonnet\n---\n\n# " ++
  pyTitle ((pyReplace name "-" " ")) ++ " Agent\n\nTODO: Add agent instructions here.\n"

/-- Stub content of `fix_create_skill_stub` (lines 311-328). -/
def skillStubContent (name : String) : String :=
  "---\nname: " ++ name ++ "\ndescription: TODO: Add description for " ++ name ++
  "\nallowed-tools: [\"Read\", \"Grep\", \"Glob\"]\n---\n\n# " ++
  pyTitle ((pyReplace name "-" " ")) ++
  "\n\nTODO: Add skill instructions here.\n\n## When to Use\n\n- TODO: Add trigger scenarios\n\n## How to Use\n\nTODO: Add usage instructions\n"

/-- `fix_create_command_stub(cmd_path, name)`: mkdir parents, write stub. -/
def fix_create_command_stub (fs : FS) (cmdPath : FPath) (name : String) : FS :=
  (fs.mkdirp cmdPath.dropLast).writeFile cmdPath (commandStubContent name)

/-- `fix_create_agent_stub(agent_path, name)`. -/
def fix_create_agent_stub (fs : FS) (agentPath : FPath) (name : String) : FS :=
  (fs.mkdirp agentPath.dropLast).writeFile agentPath (agentStubContent name)

/-- `fix_create_skill_stub(skill_dir, name)`: mkdir the skill directory,
write `SKILL.md` into it. -/
def fix_create_skill_stub (fs : FS) (skillDir : FPath) (name : String) : FS :=
  (fs.mkdirp skillDir).writeFile (skillDir ++ ["SKILL.md"]) (skillStubContent name)

/-- `fix_skill_structure(plugin_root, skill_path)` (lines 467-507): convert a
`skills/foo.md` file into `skills/foo/SKILL.md`, preserving the content, and
remove the original; then the same for a stray copy under `.claude-plugin/`. -/
def fix_skill_structure (fs : FS) (skillPath : String) : FS :=
  let normalized := lstripDotSlash skillPath
  let fullPath : FPath := splitPath normalized
  let fs1 :=
    if fs.isFile fullPath && hasMdSuffix (lastComp fullPath) then
      match fs.fileContent fullPath with
      | some content =>
        let dirPath := fullPath.dropLast ++ [mdStem (lastComp fullPath)]
        (((fs.mkdirp dirPath).writeFile (dirPath ++ ["SKILL.md"]) content).removeFile fullPath)
      | none => fs
    else fs
  let wrongPath : FPath := ".claude-plugin" :: splitPath normalized
  if fs1.isFile wrongPath && hasMdSuffix (lastComp wrongPath) then
    match fs1.fileContent wrongPath with
    | some content =>
      let correctDir : FPath := ["skills", mdStem (lastComp wrongPath)]
      (((fs1.mkdirp correctDir).writeFile (correctDir ++ ["SKILL.md"]) content).removeFile wrongPath)
    | none => fs1
  else fs1

/-- `fix_move_component_to_root(plugin_root, component_type)` (lines 443-464). -/
def fix_move_component_to_root (fs : FS) (componentType : String) : FS :=
  let wrongDir : FPath := [".claude-plugin", componentType]
  let correctDir : FPath := [componentType]
  if !fs.pathExists wrongDir then fs
  else if fs.pathExists correctDir then
    let fs' := (fs.childNames wrongDir).foldl (fun acc name =>
      if !acc.pathExists (correctDir ++ [name]) then
        acc.relocate (wrongDir ++ [name]) (correctDir ++ [name])
      else acc) fs
    if (fs'.childNames wrongDir).isEmpty then fs'.removeDir wrongDir else fs'
  else fs.relocate wrongDir correctDir

/-- The marketplace-path rewrite at the end of `fix_skills_complete`
(lines 551-565): strip `.md` from every entry of each `skills` list. -/
def skillsCompleteManifest (data : J) : J :=
  let fixPlugin := fun (plugin : J) =>
    match plugin.lookup "skills" with
    | some (.arr skills) =>
      if skills.isEmpty then plugin
      else plugin.setKey "skills" (.arr (skills.map (fun v =>
        match v with
        | .str s => .str (if strEndsWith s ".md" then strDropRight s 3 else s)
        | other => other)))
    | _ => plugin
  match data.lookup "plugins" with
  | some (.arr ps) => data.setKey "plugins" (.arr (ps.map fixPlugin))
  | some _ => data
  | none => fixPlugin data

/-- `fix_skills_complete(plugin_root)` (lines 509-565): move
`.claude-plugin/skills/` to `./skills/`, converting `.md` files into
directory/SKILL.md form, then strip `.md` from the manifest skills lists. -/
def fix_skills_complete (data : J) (fs : FS) : J × FS :=
  let wrongDir : FPath := [".claude-plugin", "skills"]
  let correctDir : FPath := ["skills"]
  if !fs.pathExists wrongDir then (data, fs)
  else
    let fs0 := fs.mkdirp correctDir
    let fs1 := (fs0.childNames wrongDir).foldl (fun acc name =>
      let p := wrongDir ++ [name]
      if acc.isFile p && hasMdSuffix name then
        match acc.fileContent p with
        | some content =>
          let targetDir := correctDir ++ [mdStem name]
          (((acc.mkdirp targetDir).writeFile (targetDir ++ ["SKILL.md"]) content).removeFile p)
        | none => acc
      else if acc.isDir p then
        if !acc.pathExists (correctDir ++ [name]) then acc.relocate p (correctDir ++ [name])
        else acc
      else acc) fs0
    let fs2 := if fs1.pathExists wrongDir && (fs1.childNames wrongDir).isEmpty then
        fs1.removeDir wrongDir
      else fs1
    (skillsCompleteManifest data, fs2)

-- ---------------------------------------------------------------------------
-- Fix application (class Fix.apply, apply_fixes; lines 162-169, 1937-1958).
-- ---------------------------------------------------------------------------

/-- The state a fix mutates: the manifest document plus the plugin tree. -/
structure St where
  manifest : J
  fs : FS

/-- Dispatch of `Fix.apply`: run the bound fix function on the state.
`none` models a raised exception (caught; state unchanged). -/
def applyFix : FixAction → St → Option St
  | .addToMarketplace t p, st =>
    (fix_add_to_marketplace st.manifest t p).map (fun m => { st with manifest := m })
  | .pathFormat t o n, st =>
    (fix_path_format st.manifest t o n).map (fun m => { st with manifest := m })
  | .sourcePath i s, st =>
    (fix_source_path st.manifest i s).map (fun m => { st with manifest := m })
  | .githubSourceFormat i, st =>
    (fix_github_source_format st.manifest i).map (fun m => { st with manifest := m })
  | .repositoryToString i, st =>
    (fix_repository_to_string st.manifest i).map (fun m => { st with manifest := m })
  | .skillStructure p, st => some { st with fs := fix_skill_structure st.fs p }
  | .skillsComplete, st =>
    let (m, fs) := fix_skills_complete st.manifest st.fs
    some { manifest := m, fs := fs }
  | .moveComponentToRoot ct, st => some { st with fs := fix_move_component_to_root st.fs ct }
  | .createCommandStub path name, st => some { st with fs := fix_create_command_stub st.fs path name }
  | .createAgentStub path name, st => some { st with fs := fix_create_agent_stub st.fs path name }
  | .createSkillStub dir name, st => some { st with fs := fix_create_skill_stub st.fs dir name }

structure ApplyOut where
  succeeded : Nat
  failed : Nat
  st : St

/-- `apply_fixes(fixes, dry_run)` (lines 1937-1958): dry-run only counts;
otherwise each fix is applied in report order, failures are counted and do
not stop the batch. -/
def apply_fixes (fixes : List FixT) (dryRun : Bool) (st : St) : ApplyOut :=
  if dryRun then ⟨fixes.length, 0, st⟩
  else fixes.foldl (fun acc f =>
    match applyFix f.action acc.st with
    | some st' => { acc with succeeded := acc.succeeded + 1, st := st' }
    | none => { acc with failed := acc.failed + 1 }) ⟨0, 0, st⟩

-- ---------------------------------------------------------------------------
-- validate_registration (lines 860-992).
-- ---------------------------------------------------------------------------

/-- One registered command entry (lines 874-897): path-format check, then
existence check against `commands/{name}.md`.  Returns the issues plus the
name added to `registered_set`. -/
def regCommandStep (commandsDir : FPath) (fs : FS) (cmd : String) : VR × String :=
  let extVR :=
    if !strEndsWith cmd ".md" then
      let correctPath := cmd ++ ".md"
      VR.errFix
        ("Command path \"" ++ cmd ++ "\" missing .md extension (plugin system will fail to load)")
        ⟨"Fix path to \"" ++ correctPath ++ "\"", .pathFormat "commands" cmd correctPath⟩
    else {}
  let name :=
    if !strEndsWith cmd ".md" then (pyReplace ((pyReplace cmd "./commands/" "")) "commands/" "")
    else pyReplace (pyReplace (pyReplace cmd "./commands/" "") "commands/" "") ".md" ""
  let cmdFile := commandsDir ++ splitPath (name ++ ".md")
  let fileVR :=
    if fs.pathExists cmdFile then
      if strEndsWith cmd ".md" then VR.pass ("commands/" ++ name ++ ".md registered and exists")
      else {}
    else
      VR.errFix ("commands/" ++ name ++ ".md NOT FOUND (registered in marketplace.json)")
        ⟨"Create stub commands/" ++ name ++ ".md", .createCommandStub cmdFile name⟩
  (extVR.merge fileVR, name)

/-- One registered agent entry (lines 913-935). -/
def regAgentStep (agentsDir : FPath) (fs : FS) (agent : String) : VR × String :=
  let extVR :=
    if !strEndsWith agent ".md" then
      let correctPath := agent ++ ".md"
      VR.errFix
        ("Agent path \"" ++ agent ++ "\" missing .md extension (plugin system will fail to load)")
        ⟨"Fix path to \"" ++ correctPath ++ "\"", .pathFormat "agents" agent correctPath⟩
    else {}
  let name :=
    if !strEndsWith agent ".md" then (pyReplace ((pyReplace agent "./agents/" "")) "agents/" "")
    else pyReplace (pyReplace (pyReplace agent "./agents/" "") "agents/" "") ".md" ""
  let agentFile := agentsDir ++ splitPath (name ++ ".md")
  let fileVR :=
    if fs.pathExists agentFile then
      if strEndsWith agent ".md" then VR.pass ("agents/" ++ name ++ ".md registered and exists")
      else {}
    else
      VR.errFix ("agents/" ++ name ++ ".md NOT FOUND")
        ⟨"Create stub agents/" ++ name ++ ".md", .createAgentStub agentFile name⟩
  (extVR.merge fileVR, name)

/-- One registered skill entry (lines 951-980). -/
def regSkillStep (skillsDir : FPath) (fs : FS) (skill : String) : VR × String :=
  let extVR :=
    if strEndsWith skill ".md" then
      let correctPath := rstripSlash ((pyReplace skill ".md" ""))
      VR.errFix
        ("Skill path \"" ++ skill ++ "\" has .md extension but skills must be directories. " ++
         "Skills are folders containing SKILL.md, not .md files themselves. " ++
         "Correct format: \"" ++ correctPath ++ "\" (the directory, not the file)")
        ⟨"Fix path to \"" ++ correctPath ++ "\"", .pathFormat "skills" skill correctPath⟩
    else {}
  let name :=
    if strEndsWith skill ".md" then
      rstripSlash (pyReplace (pyReplace (pyReplace skill "./skills/" "") "skills/" "") ".md" "")
    else rstripSlash ((pyReplace ((pyReplace skill "./skills/" "")) "skills/" ""))
  let skillDir := skillsDir ++ splitPath name
  let fileVR :=
    if fs.pathExists (skillDir ++ ["SKILL.md"]) then
      if !strEndsWith skill ".md" then VR.pass ("skills/" ++ name ++ "/SKILL.md registered and exists")
      else {}
    else if fs.pathExists skillDir then
      VR.errFix ("skills/" ++ name ++ "/ exists but missing SKILL.md")
        ⟨"Create skills/" ++ name ++ "/SKILL.md", .createSkillStub skillDir name⟩
    else
      VR.errFix ("skills/" ++ name ++ "/ NOT FOUND")
        ⟨"Create skills/" ++ name ++ "/ with SKILL.md", .createSkillStub skillDir name⟩
  (extVR.merge fileVR, name)

/-- `validate_registration(plugin_root, plugin_data, marketplace_path)`:
bidirectional reconciliation of the manifest component lists against the
`commands/`, `agents/` and `skills/` trees. -/
def validate_registration (effRoot : FPath) (fs : FS) (plugin : J) : VR :=
  let registeredCommands := (plugin.getD "commands" (.arr [])).strList
  let registeredAgents := (plugin.getD "agents" (.arr [])).strList
  let registeredSkills := (plugin.getD "skills" (.arr [])).strList
  let commandsDir := effRoot ++ ["commands"]
  let vrCommands :=
    if fs.pathExists commandsDir then
      let actual := fs.globMdStems commandsDir
      let steps := registeredCommands.map (regCommandStep commandsDir fs)
      let registeredSet := steps.map (·.2)
      (VR.mergeAll (steps.map (·.1))).merge
        (VR.mergeAll (actual.filterMap (fun a =>
          if registeredSet.contains a then none
          else some (VR.errFix
            ("commands/" ++ a ++ ".md exists but NOT REGISTERED in marketplace.json")
            ⟨"Add commands/" ++ a ++ ".md to marketplace.json",
             .addToMarketplace "commands" ("commands/" ++ a ++ ".md")⟩))))
    else {}
  let agentsDir := effRoot ++ ["agents"]
  let vrAgents :=
    if fs.pathExists agentsDir then
      let actual := fs.globMdStems agentsDir
      let steps := registeredAgents.map (regAgentStep agentsDir fs)
      let registeredSet := steps.map (·.2)
      (VR.mergeAll (steps.map (·.1))).merge
        (VR.mergeAll (actual.filterMap (fun a =>
          if registeredSet.contains a then none
          else some (VR.errFix
            ("agents/" ++ a ++ ".md exists but NOT REGISTERED")
            ⟨"Add agents/" ++ a ++ ".md to marketplace.json",
             .addToMarketplace "agents" ("agents/" ++ a ++ ".md")⟩))))
    else {}
  let skillsDir := effRoot ++ ["skills"]
  let vrSkills :=
    if fs.pathExists skillsDir then
      let actual := fs.childDirNames skillsDir
      let steps := registeredSkills.map (regSkillStep skillsDir fs)
      let registeredSet := steps.map (·.2)
      (VR.mergeAll (steps.map (·.1))).merge
        (VR.mergeAll (actual.filterMap (fun a =>
          if registeredSet.contains a then none
          else if fs.pathExists (skillsDir ++ [a, "SKILL.md"]) then
            some (VR.errFix
              ("skills/" ++ a ++ "/ exists with SKILL.md but NOT REGISTERED")
              ⟨"Add skills/" ++ a ++ " to marketplace.json",
               .addToMarketplace "skills" ("skills/" ++ a)⟩)
          else none)))
    else {}
  VR.mergeAll [vrCommands, vrAgents, vrSkills]

-- ---------------------------------------------------------------------------
-- validate_component_locations (lines 2303-2450).
-- ---------------------------------------------------------------------------

/-- `data.get("plugins", [data])`: plugin list with whole-document fallback.
(A non-list `plugins` value makes the source raise while iterating; such
documents are outside the modelled states.) -/
def jPluginsList (data : J) : List J :=
  match data.lookup "plugins" with
  | some (.arr ps) => ps
  | some _ => []
  | none => [data]

/-- `plugin.get(ct, [])` followed by the string-to-singleton coercion
(lines 2340-2342). -/
def clItems (plugin : J) (ct : String) : List J :=
  match plugin.lookup ct with
  | some (.str s) => [.str s]
  | some (.arr xs) => xs
  | _ => []

/-- Effective root of a plugin entry inside `validate_component_locations`
(lines 2326-2336; note the `startswith("./")` guard, unlike `main`). -/
def clEffectiveRoot (plugin : J) : FPath :=
  match plugin.getD "source" (.str "./") with
  | .obj _ => []
  | .str s =>
    if s = "." || s = "./" then []
    else if strStartsWith s "./" then splitPath (lstripDotSlash s)
    else []
  | _ => []

/-- Rendering of a path into a message (`{full_path}`; the source prints the
absolute path, the model prints it relative to the plugin root). -/
def showPath (p : FPath) : String := joinSep "/" p

/-- One declared component path check (lines 2344-2413). -/
def clItemCheck (fs : FS) (effRoot : FPath) (componentType : String) (item : J) : VR :=
  match item with
  | .str itemPath =>
    let normalized := lstripDotSlash itemPath
    let fullPath := effRoot ++ splitPath normalized
    if !fs.pathExists fullPath then
      let wrongLocation := effRoot ++ [".claude-plugin"] ++ splitPath normalized
      if fs.pathExists wrongLocation then
        VR.err (format_error E001
          (componentType ++ ": \"" ++ itemPath ++ "\" found inside .claude-plugin/"))
      else
        VR.err (format_error E012
          (componentType ++ ": \"" ++ itemPath ++ "\" not found at " ++ showPath fullPath))
    else if componentType = "skills" then
      if fs.isFile fullPath then
        VR.errFix
          (format_error E002
            ("skills: \"" ++ itemPath ++ "\" is a file, converting to directory/SKILL.md"))
          ⟨"Convert " ++ itemPath ++ " to directory structure", .skillStructure itemPath⟩
      else if !fs.pathExists (fullPath ++ ["SKILL.md"]) then
        VR.err (format_error E009
          ("skills: \"" ++ itemPath ++ "\" directory exists but missing SKILL.md"))
      else VR.pass ("skills: \"" ++ itemPath ++ "\" structure valid")
    else if componentType = "hooks" then
      if fs.isDir fullPath then
        if fs.pathExists (fullPath ++ ["hooks.json"]) then
          VR.pass ("hooks: \"" ++ itemPath ++ "/hooks.json\" exists")
        else VR.warn ("hooks: \"" ++ itemPath ++ "\" directory exists but missing hooks.json")
      else if fs.isFile fullPath then
        if strEndsWith itemPath ".json" then VR.pass ("hooks: \"" ++ itemPath ++ "\" exists")
        else VR.warn ("hooks: \"" ++ itemPath ++
          "\" should be .json file or directory containing hooks.json")
      else {}
    else
      if fs.isDir fullPath then
        VR.err (format_error (if componentType = "commands" then E003 else E004)
          (componentType ++ ": \"" ++ itemPath ++ "\" is a directory but " ++
           componentType ++ " must be .md files"))
      else VR.pass (componentType ++ ": \"" ++ itemPath ++ "\" exists")
  | _ => {}

def COMPONENT_TYPES : List String := ["commands", "agents", "skills", "hooks"]

/-- The `.claude-plugin/` misplacement sweep (lines 2415-2448). -/
def clMisplacedCheck (fs : FS) : VR :=
  VR.mergeAll (COMPONENT_TYPES.map (fun ct =>
    let wrongDir : FPath := [".claude-plugin", ct]
    if fs.isDir wrongDir && !(fs.childNames wrongDir).isEmpty then
      if ct = "skills" then
        VR.errFix
          (format_error E001 ("\"" ++ ct ++ "/\" is inside .claude-plugin/, will move and fix structure"))
          ⟨"Move and fix .claude-plugin/" ++ ct ++ "/", .skillsComplete⟩
      else
        VR.errFix
          (format_error E001 ("\"" ++ ct ++ "/\" is inside .claude-plugin/, moving to plugin root"))
          ⟨"Move .claude-plugin/" ++ ct ++ "/ to ./" ++ ct ++ "/", .moveComponentToRoot ct⟩
    else {}))

/-- `validate_component_locations(plugin_root, marketplace_path)`. -/
def validate_component_locations (fs : FS) (m : MLoad) : VR :=
  match m with
  | .absent => {}
  | .badJSON _ => {}
  | .ok data =>
    let perPlugin := VR.mergeAll ((jPluginsList data).map (fun plugin =>
      let effRoot := clEffectiveRoot plugin
      VR.mergeAll (COMPONENT_TYPES.map (fun ct =>
        VR.mergeAll ((clItems plugin ct).map (clItemCheck fs effRoot ct))))))
    perPlugin.merge (clMisplacedCheck fs)

-- ---------------------------------------------------------------------------
-- run_claude_cli_validation (lines 1965-1998) and the Phase-1 block of main
-- (lines 3454-3472).
-- ---------------------------------------------------------------------------

/-- Outcome of the `subprocess.run(["claude", "plugin", "validate", ...])`
call: completion with a return code and output, or one of the three
exception classes the source catches. -/
inductive SubRes where
  | completed (returncode : Int) (stdout stderr : String)
  | fileNotFound
  | timedOut
  | otherError (msg : String)
deriving Repr, DecidableEq

def isPyWs (c : Char) : Bool := c = ' ' || c = '\t' || c = '\n' || c = '\r'

/-- Python `s.strip()`. -/
def pyStrip (s : String) : String :=
  String.mk ((s.data.dropWhile isPyWs).reverse.dropWhile isPyWs |>.reverse)

/-- Python `s.lstrip("> ")`. -/
def lstripGtSpace (s : String) : String :=
  String.mk (s.data.dropWhile (fun c => c = '>' || c = ' '))

/-- Python `sub in s` (substring containment). -/
def containsSubstr (s sub : String) : Bool := go s.data
where
  go : List Char → Bool
    | [] => sub.data.isEmpty
    | c :: t => sub.data.isPrefixOf (c :: t) || go t

/-- `run_claude_cli_validation(plugin_root)`: returns
`(success, output_message, error_list)`.  On completion, every line of the
output lands in the error list, because `line.startswith("")` in the source
is true for every string; on timeout the function returns failure with the
single error `"Timeout"`; a missing CLI and any other exception return
success with an empty error list. -/
def run_claude_cli_validation : SubRes → Bool × String × List String
  | .completed rc out errOut =>
    let output := out ++ errOut
    let success := rc == 0 || containsSubstr (pyLower output) "passed"
    let errors := (pySplit '\n' output).map (fun l => pyStrip (lstripGtSpace (pyStrip l)))
    (success, pyStrip output, errors)
  | .fileNotFound =>
    (true, "Claude CLI not found - install with: npm install -g @anthropic-ai/claude-code", [])
  | .timedOut => (false, "Claude CLI validation timed out", ["Timeout"])
  | .otherError e => (true, "Claude CLI validation skipped: " ++ e, [])

/-- The Phase-1 block of `main` (lines 3456-3472): skipped entirely under
`--quiet`; otherwise the CLI result is folded into the report, deduplicating
against the errors accumulated so far. -/
def phase1 (quietMode : Bool) (sub : SubRes) (priorErrors : List String) : VR :=
  if quietMode then {}
  else
    match run_claude_cli_validation sub with
    | (cliSuccess, cliOutput, cliErrors) =>
      let cliAvailable := !containsSubstr (pyLower cliOutput) "not found"
      if cliAvailable then
        if cliSuccess then VR.pass "CLI validation: passed"
        else
          { errors := cliErrors.foldl (fun acc e =>
              let m := "CLI: " ++ e
              if (priorErrors ++ acc).contains m then acc else acc ++ [m]) [] }
      else VR.warn "Claude CLI not installed (npm install -g @anthropic-ai/claude-code)"

-- ---------------------------------------------------------------------------
-- check_and_clear_outdated_cache (lines 3194-3252).
-- ---------------------------------------------------------------------------

/-- State of one cached version directory under
`~/.claude/plugins/cache/{marketplace}/{plugin}/`: its name and its
`.claude-plugin/marketplace.json`, which may be missing or unreadable
(any exception while reading it is swallowed by the source). -/
inductive CachedMkt where
  | absent
  | unreadable
  | parsed (data : J)
deriving Repr

structure CacheDir where
  name : String
  mkt : CachedMkt

/-- `check_and_clear_outdated_cache(plugin_root, marketplace_data)`: returns
the report plus the names of the cache directories removed by `rmtree`
(modelled as always succeeding; the failure branch only rewords the report).
`cacheDirs = none` models an absent cache base directory. -/
def check_and_clear_outdated_cache (data : J) (cacheDirs : Option (List CacheDir)) :
    VR × List String :=
  let marketplaceName := jStr (data.getD "name" (.str ""))
  let plugins := (data.getD "plugins" (.arr [])).arrList
  if plugins.isEmpty || marketplaceName = "" then ({}, [])
  else
    let first := plugins.headD (.obj [])
    let localVersion := jStr (first.getD "version" (.str ""))
    let pluginName := jStr (first.getD "name" (.str ""))
    if pluginName = "" then ({}, [])
    else
      match cacheDirs with
      | none => ({}, [])
      | some dirs =>
        dirs.foldl (fun acc cd =>
          match cd.mkt with
          | .parsed cdata =>
            let cachedPlugins := (cdata.getD "plugins" (.arr [])).arrList
            if cachedPlugins.isEmpty then acc
            else
              let cachedVer :=
                match (cachedPlugins.headD (.obj [])).lookup "version" with
                | some (.str v) => v
                | _ => cd.name
              if localVersion ≠ "" && cachedVer ≠ localVersion then
                ((acc.1.merge (VR.warn ("[CACHE] Outdated: " ++ pluginName ++ " v" ++
                    cachedVer ++ " (local: v" ++ localVersion ++ ")"))).merge
                  (VR.pass ("[CACHE] Cleared: " ++ marketplaceName ++ "/" ++ pluginName ++
                    "/" ++ cd.name)),
                 acc.2 ++ [cd.name])
              else
                (acc.1.merge (VR.pass ("[CACHE] Current: " ++ pluginName ++ " v" ++ cachedVer)),
                 acc.2)
          | _ => acc) ({}, [])

-- ---------------------------------------------------------------------------
-- The orchestrator: main (lines 3372-3630).
-- ---------------------------------------------------------------------------

/-- Command-line flags of `main` (lines 3374-3380). -/
structure Flags where
  jsonOutput : Bool := false
  fixMode : Bool := false
  dryRun : Bool := false
  schemaOnly : Bool := false
  preEdit : Bool := false
  quietMode : Bool := false
  skipGit : Bool := false
deriving Repr, DecidableEq

inductive Phase where
  | p0 | p1 | p2 | p3 | p4 | p5 | p6
deriving Repr, DecidableEq

/-- Effective root of a plugin entry inside `main` (lines 3493-3503; note the
`source not in ["github", "url"]` guard, unlike `validate_component_locations`). -/
def mainEffectiveRoot (plugin : J) : FPath :=
  match plugin.getD "source" (.str "./") with
  | .obj _ => []
  | .str s =>
    if s = "." || s = "./" then []
    else if s ≠ "github" && s ≠ "url" then splitPath (lstripDotSlash s)
    else []
  | _ => []

/-- The exit-code computation of `main` (lines 3624-3630). -/
def mainExitCode (fixMode dryRun : Bool) (errors warnings : List String) : Nat :=
  if !errors.isEmpty && !(fixMode && !dryRun) then 1
  else if !warnings.isEmpty then 2
  else 0

/-- Everything one run of `main` consumes after the manifest has been found
and parsed.  The checkers that are not embedded here (path-resolution
consistency, github-source-with-local-files, settings, marketplace-cache
consistency, frontmatter, scripts, plugin.json, hooks.json — all of Phase 2
beyond locations and registration — plus Phases 3, 4 and 5) are taken as
opaque results; none of them performs a write in the source (all
`write_text`/`unlink`/`rmtree`/`chmod` calls live in fix functions reachable
only through `apply_fixes`, except the `rmtree` in
`check_and_clear_outdated_cache`). -/
structure MainInput where
  flags : Flags
  data : J
  fs : FS
  cli : SubRes
  cache : Option (List CacheDir)
  phase2extra : VR := {}
  phase3 : VR := {}
  phase4 : VR := {}
  phase5 : VR := {}

/-- The observable outcome of one run of `main`: the aggregate report, the
exit code, the phases that executed, the fix actions applied to the tree
(empty unless `--fix` without `--dry-run`), the cache directories deleted by
Phase 6, and the final manifest/tree state. -/
structure MainOutput where
  total : VR
  exit : Nat
  phasesRun : List Phase
  fixWrites : List FixAction
  cacheDeleted : List String
  finalSt : St

/-- `main` (lines 3372-3630) after the manifest is found and parsed:
Phase 0, the `--schema-only` fast path, Phases 1-6, the optional fix
application, and the exit code.  Phase 3 merges only warnings and passes
(lines 3520-3521); Phase 6 runs on every full run, regardless of the fix
flags; the exit code never re-validates after fixes. -/
def mainRun (inp : MainInput) : MainOutput :=
  let schemaResult := validate_schema_static (.ok inp.data)
  if inp.flags.schemaOnly then
    { total := schemaResult,
      exit := if schemaResult.errors.isEmpty then 0 else 1,
      phasesRun := [.p0],
      fixWrites := [],
      cacheDeleted := [],
      finalSt := ⟨inp.data, inp.fs⟩ }
  else
    let r1 := phase1 inp.flags.quietMode inp.cli schemaResult.errors
    let t1 := schemaResult.merge r1
    let compLoc := validate_component_locations inp.fs (.ok inp.data)
    let regs := VR.mergeAll ((jPluginsList inp.data).map (fun p =>
      validate_registration (mainEffectiveRoot p) inp.fs p))
    let t2 := ((t1.merge compLoc).merge inp.phase2extra).merge regs
    let t3 := { t2 with
      warnings := t2.warnings ++ inp.phase3.warnings,
      passed := t2.passed ++ inp.phase3.passed }
    let t4 := if inp.flags.skipGit then t3 else t3.merge inp.phase4
    let t5 := t4.merge inp.phase5
    let cacheOut := check_and_clear_outdated_cache inp.data inp.cache
    let t6 := t5.merge cacheOut.1
    let st0 : St := ⟨inp.data, inp.fs⟩
    let applying := inp.flags.fixMode && !t6.fixes.isEmpty && !inp.flags.dryRun
    let stF := if applying then (apply_fixes t6.fixes false st0).st else st0
    { total := t6,
      exit := mainExitCode inp.flags.fixMode inp.flags.dryRun t6.errors t6.warnings,
      phasesRun := [Phase.p0] ++ (if inp.flags.quietMode then [] else [Phase.p1]) ++
        [Phase.p2, Phase.p3] ++ (if inp.flags.skipGit then [] else [Phase.p4]) ++
        [Phase.p5, Phase.p6],
      fixWrites := if applying then t6.fixes.map (·.action) else [],
      cacheDeleted := cacheOut.2,
      finalSt := stF }

-- ---------------------------------------------------------------------------
-- Concrete runs used by the theorems below.
-- ---------------------------------------------------------------------------

/-- The error code of a formatted message (`[E006] ...` ↦ `E006`). -/
def errCodeOf (msg : String) : String :=
  String.mk ((msg.data.drop 1).takeWhile (fun c => c ≠ ']'))

/-- A schema-clean single-plugin manifest. -/
def exMarket : J :=
  .obj [("name", .str "my-market"), ("owner", .obj [("name", .str "o")]),
        ("plugins", .arr [.obj [("name", .str "my-plugin"), ("source", .str "./")]])]

/-- A manifest whose only issue is the wrong source discriminator key
(`{"type": "github", ...}` instead of `{"source": "github", ...}`): its one
error (E006) carries no fix. -/
def exManifestE006 : J :=
  .obj [("name", .str "my-market"), ("owner", .obj [("name", .str "o")]),
        ("plugins", .arr [.obj [("name", .str "my-plugin"),
          ("source", .obj [("type", .str "github"), ("repo", .str "o/r")])]])]

/-- Run of `--fix` (without `--dry-run`, with `--quiet`) on the manifest with
the unfixable E006 error, empty tree, no cache. -/
def exInputFixE006 : MainInput :=
  { flags := { fixMode := true, quietMode := true }, data := exManifestE006,
    fs := ⟨[], []⟩, cli := .fileNotFound, cache := none }

/-- Default-flag run on the clean manifest where the host CLI times out. -/
def exInputTimeout : MainInput :=
  { flags := {}, data := exMarket, fs := ⟨[], []⟩, cli := .timedOut, cache := none }

/-- The clean manifest carrying version 2.0.0. -/
def exManifestV2 : J :=
  .obj [("name", .str "my-market"), ("owner", .obj [("name", .str "o")]),
        ("plugins", .arr [.obj [("name", .str "my-plugin"), ("source", .str "./"),
          ("version", .str "2.0.0")]])]

/-- A cache directory holding version 1.0.0 of the plugin. -/
def exStaleCache : List CacheDir :=
  [⟨"1.0.0", .parsed (.obj [("plugins", .arr [.obj [("version", .str "1.0.0")]])])⟩]

/-- Default-flag run (no `--fix`) with a stale cached copy present. -/
def exInputStaleCache : MainInput :=
  { flags := {}, data := exManifestV2, fs := ⟨[], []⟩, cli := .fileNotFound,
    cache := some exStaleCache }

/-- A tree holding exactly `commands/{name}.md` with content `c`. -/
def fsOneCmd (name c : String) : FS :=
  ⟨[(["commands", name ++ ".md"], c)], [["commands"]]⟩

/-- A manifest registering the command under the wrong extension convention
(`./commands/foo`, no `.md`). -/
def exManifestBadExt : J :=
  .obj [("name", .str "my-market"), ("owner", .obj [("name", .str "o")]),
        ("plugins", .arr [.obj [("name", .str "my-plugin"), ("source", .str "./"),
          ("commands", .arr [.str "./commands/foo"])]])]

/-- Quiet full run on the wrong-extension manifest with `commands/foo.md`
present on disk. -/
def exInputBadExt : MainInput :=
  { flags := { quietMode := true }, data := exManifestBadExt, fs := fsOneCmd "foo" "# foo\n",
    cli := .fileNotFound, cache := none }

/-- Quiet full run on the clean manifest with an unregistered
`commands/foo.md` present on disk. -/
def exInputUnreg : MainInput :=
  { flags := { quietMode := true }, data := exMarket, fs := fsOneCmd "foo" "# foo\n",
    cli := .fileNotFound, cache := none }

/-- The plugin entry of `exMarket` extended with a registered command list
containing the normalized path of `commands/{name}.md`. -/
def pluginAfterAdd (name : String) : J :=
  .obj [("name", .str "my-plugin"), ("source", .str "./"),
        ("commands", .arr [.str ("./" ++ ("commands/" ++ name ++ ".md"))])]

/-- `exMarket` after `fix_add_to_marketplace` for `commands/{name}.md`. -/
def marketAfterAdd (name : String) : J :=
  .obj [("name", .str "my-market"), ("owner", .obj [("name", .str "o")]),
        ("plugins", .arr [pluginAfterAdd name])]

/-- The plugin entry of `exManifestBadExt` after `fix_path_format` rewrote
the command path to carry the `.md` extension. -/
def pluginAfterPathFix (name : String) : J :=
  .obj [("name", .str "my-plugin"), ("source", .str "./"),
        ("commands", .arr [.str (("./commands/" ++ name) ++ ".md")])]

/-- `exManifestBadExt` (generalized over the name) after its path Fix. -/
def marketAfterPathFix (name : String) : J :=
  .obj [("name", .str "my-market"), ("owner", .obj [("name", .str "o")]),
        ("plugins", .arr [pluginAfterPathFix name])]

/-- The wrong-extension manifest generalized over the command name. -/
def marketBadExt (name : String) : J :=
  .obj [("name", .str "my-market"), ("owner", .obj [("name", .str "o")]),
        ("plugins", .arr [.obj [("name", .str "my-plugin"), ("source", .str "./"),
          ("commands", .arr [.str ("./commands/" ++ name)])]])]

/-- A manifest with one plugin and no `commands` list yet, generalized base
for the idempotence witness. -/
def exAddBase : J :=
  .obj [("name", .str "m"), ("plugins", .arr [.obj [("name", .str "p")]])]

/-- `exAddBase` after one `fix_add_to_marketplace` of `commands/foo.md`. -/
def exAddOnce : J :=
  .obj [("name", .str "m"), ("plugins", .arr [.obj [("name", .str "p"),
        ("commands", .arr [.str "./commands/foo.md"])]])]

/-- The tree after a skill file was converted to directory form. -/
def exConvertedSkillFS : FS :=
  ⟨[(["skills", "foo", "SKILL.md"], "hello")], [["skills"], ["skills", "foo"]]⟩

/-- A `--schema-only` run with an adversarial environment (CLI would time
out, a stale cache is present, an unregistered command is on disk): none of
it is reachable from the fast path. -/
def exInputSchemaOnly : MainInput :=
  { flags := { schemaOnly := true }, data := exMarket, fs := fsOneCmd "foo" "# foo\n",
    cli := .timedOut, cache := some exStaleCache }

/-- A manifest registering a skill under the wrong extension convention
(`./skills/foo.md`, a file path instead of a directory path). -/
def exManifestSkillExt : J :=
  .obj [("name", .str "my-market"), ("owner", .obj [("name", .str "o")]),
        ("plugins", .arr [.obj [("name", .str "my-plugin"), ("source", .str "./"),
          ("skills", .arr [.str "./skills/foo.md"])]])]

/-- A tree holding the skill as a plain file `skills/foo.md`. -/
def exFsSkillFile : FS := ⟨[(["skills", "foo.md"], "# skill\n")], [["skills"]]⟩

/-- Quiet full run on the wrong-extension skill manifest with the file
present on disk. -/
def exInputSkillExt : MainInput :=
  { flags := { quietMode := true }, data := exManifestSkillExt, fs := exFsSkillFile,
    cli := .fileNotFound, cache := none }

/-- The skill manifest after its `fix_path_format` Fix stripped `.md`. -/
def exManifestSkillFixed : J :=
  .obj [("name", .str "my-market"), ("owner", .obj [("name", .str "o")]),
        ("plugins", .arr [.obj [("name", .str "my-plugin"), ("source", .str "./"),
          ("skills", .arr [.str "./skills/foo"])]])]

/-- The tree after `fix_skill_structure` converted `skills/foo.md` into
`skills/foo/SKILL.md`. -/
def exFsSkillConverted : FS :=
  ⟨[(["skills", "foo", "SKILL.md"], "# skill\n")], [["skills"], ["skills", "foo"]]⟩

/-- Quiet full run after both skill Fixes were applied. -/
def exInputSkillFixed : MainInput :=
  { flags := { quietMode := true }, data := exManifestSkillFixed, fs := exFsSkillConverted,
    cli := .fileNotFound, cache := none }

/-- Quiet full run on the wrong-extension command manifest with an empty
tree (no `commands/` directory at all). -/
def exInputBadExtNoDir : MainInput :=
  { flags := { quietMode := true }, data := exManifestBadExt, fs := ⟨[], []⟩,
    cli := .fileNotFound, cache := none }

-- ---------------------------------------------------------------------------
-- Helper lemmas.
-- ---------------------------------------------------------------------------

theorem strData (a b : String) (h : a.data = b.data) : a = b := by
  cases a
  cases b
  simp at h
  rw [h]

theorem lookup_setFields_self (fs : List (String × J)) (k : String) (v : J) :
    List.lookup k (setFields fs k v) = some v := by
  induction fs with
  | nil => simp [setFields, List.lookup]
  | cons e rest ih =>
    by_cases h : e.1 = k
    · simp [setFields, h, List.lookup]
    · have hb : (k == e.1) = false := by simp [Ne.symm h]
      simp [setFields, h, List.lookup, ih, hb]

theorem lookup_setFields_ne (fs : List (String × J)) (k k' : String) (v : J) (h : k' ≠ k) :
    List.lookup k' (setFields fs k v) = List.lookup k' fs := by
  have hb : (k' == k) = false := by simp [h]
  induction fs with
  | nil => simp [setFields, List.lookup, hb]
  | cons e rest ih =>
    by_cases he : e.1 = k
    · simp [setFields, he, List.lookup, hb, ih]
    · simp [setFields, he, List.lookup, ih]

theorem setFields_setFields (fs : List (String × J)) (k : String) (v : J) :
    setFields (setFields fs k v) k v = setFields fs k v := by
  induction fs with
  | nil => simp [setFields]
  | cons e rest ih =>
    by_cases h : e.1 = k
    · simp [setFields, h]
    · simp [setFields, h, ih]

theorem lookup_setKey_self (fs : List (String × J)) (k : String) (v : J) :
    ((J.obj fs).setKey k v).lookup k = some v := by
  simp [J.setKey, J.lookup, lookup_setFields_self]

theorem lookup_setKey_ne (fs : List (String × J)) (k k' : String) (v : J) (h : k' ≠ k) :
    ((J.obj fs).setKey k v).lookup k' = (J.obj fs).lookup k' := by
  simp [J.setKey, J.lookup, lookup_setFields_ne _ _ _ _ h]

/-- A plugin object that already holds the normalized path in its item list
is a fixed point of the `fix_add_to_marketplace` loop body. -/
theorem addItem_fixed (t n : String) (gs : List (String × J)) (l : List J)
    (hl : (J.obj gs).lookup t = some (J.arr l)) (ha : l.any (fun v => v.isStrVal n) = true) :
    addItemToPlugin t n (J.obj gs) = some (J.obj gs) := by
  have hk : (J.obj gs).hasKey t = true := by simp [J.hasKey, hl]
  simp [addItemToPlugin, hk, hl, ha]

/-- After `addItemToPlugin` succeeds, the plugin is an object whose item list
contains the normalized path, and all other keys are untouched. -/
theorem addItem_post (t n : String) (p q : J) (h : addItemToPlugin t n p = some q) :
    ∃ gs l, q = J.obj gs ∧ q.lookup t = some (J.arr l) ∧
      l.any (fun v => v.isStrVal n) = true ∧ (∀ k, k ≠ t → q.lookup k = p.lookup k) := by
  cases p with
  | obj fs =>
    by_cases hk : (J.obj fs).hasKey t
    · rw [addItemToPlugin] at h
      simp only [hk, if_true] at h
      have hsome : ((J.obj fs).lookup t).isSome := hk
      cases hv : (J.obj fs).lookup t with
      | none => rw [hv] at hsome; simp at hsome
      | some v =>
        rw [hv] at h
        cases v with
        | arr items =>
          by_cases hc : items.any (fun v => v.isStrVal n) = true
          · simp [hc] at h
            exact ⟨fs, items, h.symm, by rw [← h]; exact hv, by rw [hc], by intro k _; rw [← h]⟩
          · simp [hc] at h
            refine ⟨setFields fs t (J.arr (items ++ [J.str n])), items ++ [J.str n], ?_, ?_, ?_, ?_⟩
            · rw [← h]; rfl
            · rw [← h]; exact lookup_setKey_self fs t _
            · simp [J.isStrVal]
            · intro k hkt; rw [← h]; exact lookup_setKey_ne fs t k _ hkt
        | null => simp at h
        | bool b => simp at h
        | str s => simp at h
        | obj o => simp at h
    · rw [addItemToPlugin] at h
      simp only [hk, if_false, Bool.false_eq_true] at h
      rw [show ((J.obj fs).setKey t (J.arr [])).lookup t = some (J.arr []) from
        lookup_setKey_self fs t _] at h
      simp [List.any] at h
      refine ⟨setFields (setFields fs t (J.arr [])) t (J.arr [J.str n]), [J.str n], ?_, ?_, ?_, ?_⟩
      · rw [← h]; rfl
      · rw [← h]
        exact lookup_setKey_self (setFields fs t (J.arr [])) t _
      · simp [J.isStrVal]
      · intro k hkt
        rw [← h]
        rw [show ((J.obj fs).setKey t (J.arr [])).setKey t (J.arr [J.str n]) =
          (J.obj (setFields fs t (J.arr []))).setKey t (J.arr [J.str n]) from rfl]
        rw [lookup_setKey_ne _ t k _ hkt]
        simp [J.setKey, J.lookup, lookup_setFields_ne _ _ _ _ hkt]
  | null => simp [addItemToPlugin] at h
  | bool b => simp [addItemToPlugin] at h
  | str s => simp [addItemToPlugin] at h
  | arr xs => simp [addItemToPlugin] at h

theorem addItem_idem (t n : String) (p q : J) (h : addItemToPlugin t n p = some q) :
    addItemToPlugin t n q = some q := by
  obtain ⟨gs, l, hq, hl, ha, _⟩ := addItem_post t n p q h
  subst hq
  exact addItem_fixed t n gs l hl ha

theorem mapMO_idem {α : Type} (f : α → Option α) (hf : ∀ a b, f a = some b → f b = some b) :
    ∀ (l r : List α), mapMO f l = some r → mapMO f r = some r := by
  intro l
  induction l with
  | nil =>
    intro r h
    simp [mapMO] at h
    rw [h]
    rfl
  | cons a as ih =>
    intro r h
    rw [mapMO] at h
    cases hfa : f a with
    | none => rw [hfa] at h; simp at h
    | some b =>
      rw [hfa] at h
      cases hmas : mapMO f as with
      | none => rw [hmas] at h; simp at h
      | some bs =>
        rw [hmas] at h
        simp at h
        rw [← h, mapMO, hf a b hfa, ih bs hmas]

/-- `fix_add_to_marketplace` is idempotent for the component item types
(the source only calls it with `commands`, `agents` and `skills`). -/
theorem fix_add_idem (d : J) (t p : String) (r : J) (ht : t ≠ "plugins")
    (h : fix_add_to_marketplace d t p = some r) :
    fix_add_to_marketplace r t p = some r := by
  simp only [fix_add_to_marketplace] at h ⊢
  cases hd : d.lookup "plugins" with
  | none =>
    rw [hd] at h
    obtain ⟨gs, l, hq, hl, ha, hother⟩ := addItem_post _ _ _ _ h
    rw [hother "plugins" (Ne.symm ht), hd]
    exact addItem_idem _ _ _ _ h
  | some v =>
    rw [hd] at h
    cases v with
    | arr ps =>
      simp only [Option.map_eq_some'] at h
      obtain ⟨qs, hm, hr⟩ := h
      cases d with
      | obj fs =>
        subst hr
        simp only [J.setKey, J.lookup, lookup_setFields_self,
          mapMO_idem _ (addItem_idem t _) ps qs hm, Option.map_some']
        simp [J.setKey, setFields_setFields]
      | null => simp [J.lookup] at hd
      | bool b => simp [J.lookup] at hd
      | str s => simp [J.lookup] at hd
      | arr xs => simp [J.lookup] at hd
    | null => simp at h
    | bool b => simp at h
    | str s => simp at h
    | obj o => simp at h

/-- `fix_skill_structure` does nothing when neither of its two guarded
source files exists (the state after a conversion has already run). -/
theorem fix_skill_structure_noop (fs : FS) (p : String)
    (h1 : fs.isFile (splitPath (lstripDotSlash p)) = false)
    (h2 : fs.isFile (".claude-plugin" :: splitPath (lstripDotSlash p)) = false) :
    fix_skill_structure fs p = fs := by
  simp [fix_skill_structure, h1, h2]

-- ---------------------------------------------------------------------------
-- Claim theorems.
-- ---------------------------------------------------------------------------

/-- C1: with `--fix` and without `--dry-run`, the exit code does not reflect
the post-fix validation state.  On a run whose only error is the unfixable
E006 (no Fix exists, nothing is applied, the error necessarily remains
unresolved), the process still exits 0: lines 3624-3630 suppress the error
exit whenever `--fix` without `--dry-run` is passed and never re-validate.
The claim (and the script docstring, `1 - Errors found`) require exit 1
here, so the code contradicts its own documentation. -/
theorem C1_fix_mode_exit_code_bug :
    exInputFixE006.flags.fixMode = true ∧ exInputFixE006.flags.dryRun = false ∧
    (mainRun exInputFixE006).total.errors ≠ [] ∧
    (mainRun exInputFixE006).total.fixes = [] ∧
    (mainRun exInputFixE006).fixWrites = [] ∧
    (mainRun exInputFixE006).exit = 0 :=
  ⟨rfl, rfl, by decide, rfl, rfl, rfl⟩

/-- C2 (counterexample): a run of the full pipeline on a schema-clean
manifest in which the host-CLI subprocess times out ends with the error
`CLI: Timeout` in the report's errors bucket and exit code 1 — the timeout
is not marked as unavailable and does by itself cause exit 1. -/
theorem C2_timeout_counterexample :
    (mainRun exInputTimeout).total.errors = ["CLI: Timeout"] ∧
    (mainRun exInputTimeout).total.warnings = [] ∧
    (mainRun exInputTimeout).exit = 1 :=
  ⟨rfl, rfl, rfl⟩

/-- C2 (amended): on timeout `run_claude_cli_validation` returns failure
with the single error `Timeout`, and the Phase-1 block of `main` turns it
into the report error `CLI: Timeout`.  Only a missing CLI binary
(FileNotFoundError) is treated as unavailable, producing a warning and
no error.  Any other exception returns success with the message
`Claude CLI validation skipped: ...` (lines 1997-1998), so `main` treats
the CLI as available and records the pass entry `CLI validation: passed`
(lines 3459-3463) — neither a warning nor an error. -/
theorem C2_timeout_marks_failure :
    run_claude_cli_validation .timedOut = (false, "Claude CLI validation timed out", ["Timeout"]) ∧
    phase1 false .timedOut [] = { errors := ["CLI: Timeout"] } ∧
    run_claude_cli_validation .fileNotFound =
      (true, "Claude CLI not found - install with: npm install -g @anthropic-ai/claude-code", []) ∧
    phase1 false .fileNotFound [] =
      { warnings := ["Claude CLI not installed (npm install -g @anthropic-ai/claude-code)"] } ∧
    (∀ e : String, run_claude_cli_validation (.otherError e) =
      (true, "Claude CLI validation skipped: " ++ e, [])) ∧
    phase1 false (.otherError "boom") [] = { passed := ["CLI validation: passed"] } :=
  ⟨rfl, rfl, rfl, rfl, fun _ => rfl, rfl⟩

/-- C3 (counterexample): a full run without `--fix` on a manifest at version
2.0.0 with a cached copy at version 1.0.0 removes the stale cache directory
(Phase 6 calls `rmtree` unconditionally, line 3554/3243): the pipeline does
write to the filesystem although fix application was not requested. -/
theorem C3_cache_cleared_without_fix :
    exInputStaleCache.flags.fixMode = false ∧
    (mainRun exInputStaleCache).cacheDeleted = ["1.0.0"] ∧
    (mainRun exInputStaleCache).fixWrites = [] :=
  ⟨rfl, rfl, rfl⟩

/-- C3 (amended): whenever fix application is not requested (no `--fix`, or
`--fix` with `--dry-run`), the run performs no fix-registry writes — no
manifest updates, stub files, frontmatter changes or skill relocation; the
manifest and the tree are returned untouched.  Phase 6 stale-cache removal
is the exception: it is not gated on the fix flags. -/
theorem C3_no_fix_writes_without_apply (inp : MainInput)
    (h : (inp.flags.fixMode && !inp.flags.dryRun) = false) :
    (mainRun inp).fixWrites = [] ∧ (mainRun inp).finalSt.manifest = inp.data ∧
    (mainRun inp).finalSt.fs = inp.fs := by
  have happ : ∀ e : Bool, (inp.flags.fixMode && e && !inp.flags.dryRun) = false := by
    intro e
    cases hf : inp.flags.fixMode with
    | false => simp
    | true =>
      rw [hf] at h
      simp at h
      simp [h]
  by_cases hs : inp.flags.schemaOnly <;> simp [mainRun, hs, happ]

/-- C3 (witness): the amended statement at the stale-cache run. -/
theorem C3_no_fix_writes_without_apply_witness :
    (exInputStaleCache.flags.fixMode && !exInputStaleCache.flags.dryRun) = false ∧
    (mainRun exInputStaleCache).fixWrites = [] ∧
    (mainRun exInputStaleCache).finalSt.manifest = exInputStaleCache.data ∧
    (mainRun exInputStaleCache).finalSt.fs = exInputStaleCache.fs :=
  ⟨rfl, (C3_no_fix_writes_without_apply exInputStaleCache rfl).1,
    (C3_no_fix_writes_without_apply exInputStaleCache rfl).2.1,
    (C3_no_fix_writes_without_apply exInputStaleCache rfl).2.2⟩

/-- C8: the wrong discriminator key (`type` present, `source` absent) gets
E006, which is distinct from E005 (bare string `github`/`url`), from E014
(wrong type entirely, or object without either key) and from E015 (invalid
discriminator value). -/
theorem C8_source_error_codes_distinct :
    (errCodeOf ((validate_source_schema (.obj [("type", .str "github"), ("repo", .str "o/r")])
      "plugins[0]" 0).errors.headD "") = "E006") ∧
    (errCodeOf ((validate_source_schema (.str "github") "plugins[0]" 0).errors.headD "") = "E005") ∧
    (errCodeOf ((validate_source_schema (.str "url") "plugins[0]" 0).errors.headD "") = "E005") ∧
    (errCodeOf ((validate_source_schema (.arr []) "plugins[0]" 0).errors.headD "") = "E014") ∧
    (errCodeOf ((validate_source_schema (.obj [("repo", .str "o/r")]) "plugins[0]" 0).errors.headD "") = "E014") ∧
    (errCodeOf ((validate_source_schema (.obj [("source", .str "gitlab")]) "plugins[0]" 0).errors.headD "") = "E015") ∧
    "E006" ≠ "E005" ∧ "E006" ≠ "E014" ∧ "E006" ≠ "E015" :=
  ⟨rfl, rfl, rfl, rfl, rfl, rfl, by decide, by decide, by decide⟩

/-- C9: under `--schema-only` the run executes Phase 0 alone — no other
phase, no write, no cache deletion, manifest and tree untouched — its report
is exactly the static schema validation of the manifest document (a pure
function of the document, so no file beyond the manifest is read), and the
exit code is 1 exactly when Phase 0 produced an error, 0 otherwise
(warnings alone exit 0). -/
theorem C9_schema_only_fast_path (inp : MainInput) (h : inp.flags.schemaOnly = true) :
    (mainRun inp).phasesRun = [Phase.p0] ∧ (mainRun inp).fixWrites = [] ∧
    (mainRun inp).cacheDeleted = [] ∧ (mainRun inp).finalSt.manifest = inp.data ∧
    (mainRun inp).finalSt.fs = inp.fs ∧
    (mainRun inp).total = validate_schema_static (.ok inp.data) ∧
    (mainRun inp).exit = (if (validate_schema_static (.ok inp.data)).errors.isEmpty then 0 else 1) := by
  simp [mainRun, h]

/-- C9 (witness): the fast path on a clean manifest with an adversarial
environment (timeout-prone CLI, stale cache, unregistered component). -/
theorem C9_schema_only_fast_path_witness :
    exInputSchemaOnly.flags.schemaOnly = true ∧
    (mainRun exInputSchemaOnly).phasesRun = [Phase.p0] ∧
    (mainRun exInputSchemaOnly).cacheDeleted = [] ∧
    (mainRun exInputSchemaOnly).exit =
      (if (validate_schema_static (.ok exInputSchemaOnly.data)).errors.isEmpty then 0 else 1) :=
  ⟨rfl, (C9_schema_only_fast_path exInputSchemaOnly rfl).1,
    (C9_schema_only_fast_path exInputSchemaOnly rfl).2.2.1,
    (C9_schema_only_fast_path exInputSchemaOnly rfl).2.2.2.2.2.2⟩

/-- C10: with `--quiet` the Phase-1 block contributes nothing to the report
for every possible subprocess behaviour, the whole run is independent of the
host-CLI subprocess (it is never invoked), and Phase 1 is absent from the
executed phases. -/
theorem C10_quiet_skips_cli_phase (inp : MainInput) (sub : SubRes)
    (h : inp.flags.quietMode = true) :
    (∀ prior : List String, phase1 inp.flags.quietMode sub prior = {}) ∧
    mainRun { inp with cli := sub } = mainRun inp ∧
    Phase.p1 ∉ (mainRun inp).phasesRun := by
  refine ⟨fun prior => by simp [phase1, h], ?_, ?_⟩
  · simp [mainRun, phase1, h]
  · by_cases hs : inp.flags.schemaOnly <;> simp [mainRun, hs, h]

/-- C10 (witness): a quiet run is unchanged when the CLI would time out. -/
theorem C10_quiet_skips_cli_phase_witness :
    mainRun { exInputUnreg with cli := SubRes.timedOut } = mainRun exInputUnreg ∧
    Phase.p1 ∉ (mainRun exInputUnreg).phasesRun :=
  ⟨(C10_quiet_skips_cli_phase exInputUnreg SubRes.timedOut rfl).2.1,
    (C10_quiet_skips_cli_phase exInputUnreg SubRes.timedOut rfl).2.2⟩

/-- C5: applying a Fix twice does not corrupt state or duplicate entries.
`fix_add_to_marketplace` is idempotent for every component item type (the
second application returns the same document, so an entry is added only
once), and `fix_skill_structure` run after the skill file has already been
converted to a directory (neither of its guarded source files exists any
more) leaves the tree unchanged. -/
theorem C5_fix_idempotence :
    (∀ (d : J) (t p : String) (r : J), t ≠ "plugins" →
      fix_add_to_marketplace d t p = some r → fix_add_to_marketplace r t p = some r) ∧
    (∀ (fs : FS) (p : String), fs.isFile (splitPath (lstripDotSlash p)) = false →
      fs.isFile (".claude-plugin" :: splitPath (lstripDotSlash p)) = false →
      fix_skill_structure fs p = fs) :=
  ⟨fix_add_idem, fix_skill_structure_noop⟩

/-- C5 (witness): one add produces the entry, the second add returns the
same document; re-running the skill conversion on the converted tree is the
identity. -/
theorem C5_fix_idempotence_witness :
    fix_add_to_marketplace exAddBase "commands" "commands/foo.md" = some exAddOnce ∧
    fix_add_to_marketplace exAddOnce "commands" "commands/foo.md" = some exAddOnce ∧
    fix_skill_structure exConvertedSkillFS "./skills/foo.md" = exConvertedSkillFS :=
  ⟨rfl,
    C5_fix_idempotence.1 exAddBase "commands" "commands/foo.md" exAddOnce (by decide) rfl,
    C5_fix_idempotence.2 exConvertedSkillFS "./skills/foo.md" rfl rfl⟩

/-- C6: for a skill declared as `./skills/{name}.md` that resolves to an
existing file, `fix_skill_structure` creates the directory `skills/{name}`,
writes the file content unchanged into `SKILL.md` inside it, and removes the
original `.md` file.  The hypotheses are the path-surgery facts, decidable
at every concrete name. -/
theorem C6_skill_autoconvert (name content : String)
    (h1 : splitPath (lstripDotSlash ("./skills/" ++ (name ++ ".md"))) = ["skills", name ++ ".md"])
    (h2 : hasMdSuffix (name ++ ".md") = true)
    (h3 : mdStem (name ++ ".md") = name) :
    fix_skill_structure ⟨[(["skills", name ++ ".md"], content)], [["skills"]]⟩
      ("./skills/" ++ (name ++ ".md")) =
    ⟨[(["skills", name, "SKILL.md"], content)], [["skills"], ["skills", name]]⟩ := by
  have hl : lastComp ["skills", name ++ ".md"] = name ++ ".md" := rfl
  have hdl : List.dropLast ["skills", name ++ ".md"] = ["skills"] := rfl
  simp [fix_skill_structure, h1, h2, h3, hl, hdl, FS.isFile, FS.fileContent, List.lookup,
    FS.mkdirp, pathInits, FS.writeFile, setFile, FS.removeFile, List.range, List.range.loop]

/-- C6 (witness): the conversion at the concrete skill `foo`. -/
theorem C6_skill_autoconvert_witness :
    fix_skill_structure ⟨[(["skills", "foo" ++ ".md"], "hello")], [["skills"]]⟩
      ("./skills/" ++ ("foo" ++ ".md")) =
    ⟨[(["skills", "foo", "SKILL.md"], "hello")], [["skills"], ["skills", "foo"]]⟩ :=
  C6_skill_autoconvert "foo" "hello" rfl rfl rfl

/-- C7: a component file `commands/{name}.md` present on disk but absent
from the manifest's commands list yields exactly one unregistered error,
whose Fix is `fix_add_to_marketplace`; the Fix adds `./commands/{name}.md`
to the list, and a subsequent run reports no error for the component (the
reconciler passes it, the path arrays are clean, the locations check is
clean).  The closed conjuncts run the whole pipeline at `foo`: one error
and its fix, then an error-free run with exit 0 after the fix.  The
quantified hypotheses are the path-surgery facts, decidable at every
concrete name. -/
theorem C7_unregistered_command_fix_cycle :
    (∀ (name c : String),
      strEndsWith (name ++ ".md") ".md" = true →
      mdStem (name ++ ".md") = name →
      strStartsWith ("commands/" ++ name ++ ".md") "./" = false →
      strStartsWith ("./" ++ ("commands/" ++ name ++ ".md")) "./" = true →
      strEndsWith ("./" ++ ("commands/" ++ name ++ ".md")) ".md" = true →
      pyReplace (pyReplace (pyReplace ("./" ++ ("commands/" ++ name ++ ".md"))
        "./commands/" "") "commands/" "") ".md" "" = name →
      lstripDotSlash ("./" ++ ("commands/" ++ name ++ ".md")) = "commands/" ++ name ++ ".md" →
      splitPath ("commands/" ++ name ++ ".md") = ["commands", name ++ ".md"] →
      splitPath (name ++ ".md") = [name ++ ".md"] →
      (validate_registration [] (fsOneCmd name c)
          (.obj [("name", .str "my-plugin"), ("source", .str "./")])) =
        { errors := ["commands/" ++ name ++ ".md exists but NOT REGISTERED in marketplace.json"],
          fixes := [⟨"Add commands/" ++ name ++ ".md to marketplace.json",
            .addToMarketplace "commands" ("commands/" ++ name ++ ".md")⟩] } ∧
      fix_add_to_marketplace exMarket "commands" ("commands/" ++ name ++ ".md") =
        some (marketAfterAdd name) ∧
      (validate_registration [] (fsOneCmd name c) (pluginAfterAdd name)).errors = [] ∧
      (validate_path_arrays (pluginAfterAdd name) "plugins[0]").errors = [] ∧
      (validate_component_locations (fsOneCmd name c) (.ok (marketAfterAdd name))).errors = []) ∧
    (mainRun exInputUnreg).total.errors =
      ["commands/foo.md exists but NOT REGISTERED in marketplace.json"] ∧
    (mainRun exInputUnreg).total.fixes =
      [⟨"Add commands/foo.md to marketplace.json", .addToMarketplace "commands" "commands/foo.md"⟩] ∧
    (mainRun { exInputUnreg with data := marketAfterAdd "foo" }).total.errors = [] ∧
    (mainRun { exInputUnreg with data := marketAfterAdd "foo" }).exit = 0 := by
  refine ⟨fun name c hmd hstem hsw hsw2 hcmd hrep hls hsp hsp2 => ?_, rfl, rfl, rfl, rfl⟩
  have hglob : FS.globMdStems ⟨[(["commands", name ++ ".md"], c)], [["commands"]]⟩ ["commands"] = [name] := by
    simp [FS.globMdStems, under1?, hmd, hstem]
  have hstep : regCommandStep ["commands"] ⟨[(["commands", name ++ ".md"], c)], [["commands"]]⟩
      ("./" ++ ("commands/" ++ name ++ ".md")) =
      ({ passed := ["commands/" ++ name ++ ".md registered and exists"] }, name) := by
    simp [regCommandStep, hcmd, hrep, hsp2, FS.pathExists, FS.isFile, FS.fileContent,
      List.lookup, VR.merge, VR.pass]
  have hentry : checkCommandEntry "plugins[0]" 0 (.str ("./" ++ ("commands/" ++ name ++ ".md"))) = {} := by
    simp [checkCommandEntry, hsw2, hcmd, VR.merge]
  have hitem : clItemCheck ⟨[(["commands", name ++ ".md"], c)], [["commands"]]⟩ [] "commands"
      (.str ("./" ++ ("commands/" ++ name ++ ".md"))) =
      { passed := ["commands: \"" ++ ("./" ++ ("commands/" ++ name ++ ".md")) ++ "\" exists"] } := by
    simp [clItemCheck, hls, hsp, FS.pathExists, FS.isFile, FS.isDir, FS.fileContent,
      List.lookup, VR.pass]
  have lkc : ∀ v : J, List.lookup "commands"
      [("name", J.str "my-plugin"), ("source", J.str "./"), ("commands", v)] = some v := fun _ => rfl
  have lka : ∀ v : J, List.lookup "agents"
      [("name", J.str "my-plugin"), ("source", J.str "./"), ("commands", v)] = none := fun _ => rfl
  have lks : ∀ v : J, List.lookup "skills"
      [("name", J.str "my-plugin"), ("source", J.str "./"), ("commands", v)] = none := fun _ => rfl
  have lkh : ∀ v : J, List.lookup "hooks"
      [("name", J.str "my-plugin"), ("source", J.str "./"), ("commands", v)] = none := fun _ => rfl
  refine ⟨?_, ?_, ?_, ?_, ?_⟩
  · simp [validate_registration, fsOneCmd, hglob, J.getD, J.lookup, J.strList,
      VR.mergeAll, VR.merge, VR.errFix, FS.pathExists, FS.isFile, FS.isDir,
      FS.fileContent, List.lookup, FS.childDirNames]
  · simp only [fix_add_to_marketplace]
    rw [hsw]
    rfl
  · simp [validate_registration, fsOneCmd, hglob, hstep, pluginAfterAdd, J.getD, J.lookup,
      J.strList, lkc, lka, lks, VR.mergeAll, VR.merge, FS.pathExists, FS.isFile, FS.isDir,
      FS.fileContent, FS.childDirNames]
  · simp [validate_path_arrays, hentry, pluginAfterAdd, J.getD, J.lookup,
      lkc, lka, lks, lkh, checkHooksField, VR.mergeAll, VR.merge, J.arrList, List.enum]
  · have hpl : jPluginsList (marketAfterAdd name) = [pluginAfterAdd name] := rfl
    have her : clEffectiveRoot (pluginAfterAdd name) = [] := rfl
    have hmis : clMisplacedCheck ⟨[(["commands", name ++ ".md"], c)], [["commands"]]⟩ = {} := rfl
    have hcit : clItems (pluginAfterAdd name) "commands" =
        [.str ("./" ++ ("commands/" ++ name ++ ".md"))] := rfl
    have hait : clItems (pluginAfterAdd name) "agents" = [] := rfl
    have hsit : clItems (pluginAfterAdd name) "skills" = [] := rfl
    have hhit : clItems (pluginAfterAdd name) "hooks" = [] := rfl
    simp [validate_component_locations, hpl, her, hmis, hcit, hait, hsit, hhit, hitem,
      COMPONENT_TYPES, fsOneCmd, VR.mergeAll, VR.merge]

/-- C7 (witness): the Fix at the concrete command `foo`. -/
theorem C7_unregistered_command_fix_cycle_witness :
    fix_add_to_marketplace exMarket "commands" ("commands/" ++ "foo" ++ ".md") =
      some (marketAfterAdd "foo") :=
  (C7_unregistered_command_fix_cycle.1 "foo" "# foo\n"
    rfl rfl rfl rfl rfl rfl rfl rfl rfl).2.1

/-- C4 (counterexample): on a full run, a manifest registering
`./commands/foo` (missing `.md`) with `commands/foo.md` present on disk
produces three errors for that path, not exactly one: the Schema Validator's
E003, the locations check's E012 (the extensionless path resolves to
nothing), and the registration check's extension error. -/
theorem C4_wrong_extension_multiple_errors :
    (mainRun exInputBadExt).total.errors =
      ["[E003] plugins[0].commands[0] \"./commands/foo\" must end with .md",
       "[E012] commands: \"./commands/foo\" not found at commands/foo",
       "Command path \"./commands/foo\" missing .md extension (plugin system will fail to load)"] ∧
    (mainRun exInputBadExt).total.errors.length = 3 :=
  ⟨rfl, rfl⟩

/-- C4 (amended): for every component path with the wrong extension
convention, the Schema Validator emits exactly one wrong-extension error
carrying a `fix_path_format` Fix — E003 for commands, E004 for agents, E002
for skills (quantified conjuncts 1, 8 and 9).  A full run reports the same
path additionally from the Reconciler, with scenario-dependent count and
codes: a command path whose file exists gets three errors (E003, E012, and
the registration extension error carrying the same Fix; conjuncts 2-3), a
skill path present as a file gets four (schema E002, the locations E002
is-a-file error carrying a `fix_skill_structure` Fix, the registration
extension error, and `skills/{name}/ NOT FOUND`; closed conjuncts), and a
command path with no `commands/` directory gets two (E003 and E012; closed
conjuncts).  Applying the path Fix — together with the conversion Fix in
the skill case — removes every error for the path on re-validation
(conjuncts 4-7 and the closed skill-scenario conjuncts ending in exit 0).
The quantified hypotheses are path-surgery facts, decidable at every
concrete name. -/
theorem C4_wrong_extension_fix_cycle (name c : String)
    (hmd : strEndsWith (name ++ ".md") ".md" = true)
    (hstem : mdStem (name ++ ".md") = name)
    (hext : strEndsWith ("./commands/" ++ name) ".md" = false)
    (hsw1 : strStartsWith ("./commands/" ++ name) "./" = true)
    (hrep1 : pyReplace (pyReplace ("./commands/" ++ name) "./commands/" "") "commands/" "" = name)
    (hls1 : lstripDotSlash ("./commands/" ++ name) = "commands/" ++ name)
    (hspl1 : splitPath ("commands/" ++ name) = ["commands", name])
    (hne : (name == name ++ ".md") = false)
    (hsp3 : splitPath (name ++ ".md") = [name ++ ".md"])
    (hmd2 : strEndsWith (("./commands/" ++ name) ++ ".md") ".md" = true)
    (hsw2 : strStartsWith (("./commands/" ++ name) ++ ".md") "./" = true)
    (hrep2 : pyReplace (pyReplace (pyReplace (("./commands/" ++ name) ++ ".md")
        "./commands/" "") "commands/" "") ".md" "" = name)
    (hls2 : lstripDotSlash (("./commands/" ++ name) ++ ".md") = ("commands/" ++ name) ++ ".md")
    (hspl2 : splitPath (("commands/" ++ name) ++ ".md") = ["commands", name ++ ".md"])
    (hexta : strEndsWith ("./agents/" ++ name) ".md" = false)
    (hswa : strStartsWith ("./agents/" ++ name) "./" = true)
    (hsksw : strStartsWith (("./skills/" ++ name) ++ ".md") "./" = true)
    (hskmd : strEndsWith (("./skills/" ++ name) ++ ".md") ".md" = true)
    (hskcorr : rstripSlash (pyReplace (("./skills/" ++ name) ++ ".md") ".md" "") = "./skills/" ++ name) :
    (validate_path_arrays (.obj [("name", .str "my-plugin"), ("source", .str "./"),
        ("commands", .arr [.str ("./commands/" ++ name)])]) "plugins[0]") =
      { errors := ["[E003] plugins[0].commands[0] \"" ++ ("./commands/" ++ name) ++ "\" must end with .md"],
        fixes := [⟨"Fix path to \"" ++ (("./commands/" ++ name) ++ ".md") ++ "\"",
          .pathFormat "commands" ("./commands/" ++ name) (("./commands/" ++ name) ++ ".md")⟩] } ∧
    (validate_registration [] (fsOneCmd name c) (.obj [("name", .str "my-plugin"),
        ("source", .str "./"), ("commands", .arr [.str ("./commands/" ++ name)])])) =
      { errors := ["Command path \"" ++ ("./commands/" ++ name) ++
          "\" missing .md extension (plugin system will fail to load)"],
        fixes := [⟨"Fix path to \"" ++ (("./commands/" ++ name) ++ ".md") ++ "\"",
          .pathFormat "commands" ("./commands/" ++ name) (("./commands/" ++ name) ++ ".md")⟩] } ∧
    (clItemCheck (fsOneCmd name c) [] "commands" (.str ("./commands/" ++ name))) =
      VR.err ("[E012] commands: \"" ++ ("./commands/" ++ name) ++ "\" not found at " ++
        showPath ["commands", name]) ∧
    fix_path_format (marketBadExt name) "commands" ("./commands/" ++ name)
      (("./commands/" ++ name) ++ ".md") = some (marketAfterPathFix name) ∧
    (validate_path_arrays (pluginAfterPathFix name) "plugins[0]").errors = [] ∧
    (validate_registration [] (fsOneCmd name c) (pluginAfterPathFix name)).errors = [] ∧
    (validate_component_locations (fsOneCmd name c) (.ok (marketAfterPathFix name))).errors = [] ∧
    (validate_path_arrays (.obj [("name", .str "my-plugin"), ("source", .str "./"),
        ("agents", .arr [.str ("./agents/" ++ name)])]) "plugins[0]") =
      { errors := ["[E004] plugins[0].agents[0] \"" ++ ("./agents/" ++ name) ++ "\" must end with .md"],
        fixes := [⟨"Fix path to \"" ++ (("./agents/" ++ name) ++ ".md") ++ "\"",
          .pathFormat "agents" ("./agents/" ++ name) (("./agents/" ++ name) ++ ".md")⟩] } ∧
    (validate_path_arrays (.obj [("name", .str "my-plugin"), ("source", .str "./"),
        ("skills", .arr [.str (("./skills/" ++ name) ++ ".md")])]) "plugins[0]") =
      { errors := ["[E002] plugins[0].skills[0] \"" ++ (("./skills/" ++ name) ++ ".md") ++
          "\" has .md extension. Skills are directories, not files."],
        fixes := [⟨"Fix path to \"" ++ ("./skills/" ++ name) ++ "\"",
          .pathFormat "skills" (("./skills/" ++ name) ++ ".md") ("./skills/" ++ name)⟩] } ∧
    (mainRun exInputSkillExt).total.errors =
      ["[E002] plugins[0].skills[0] \"./skills/foo.md\" has .md extension. Skills are directories, not files.",
       "[E002] skills: \"./skills/foo.md\" is a file, converting to directory/SKILL.md",
       "Skill path \"./skills/foo.md\" has .md extension but skills must be directories. " ++
         "Skills are folders containing SKILL.md, not .md files themselves. " ++
         "Correct format: \"./skills/foo\" (the directory, not the file)",
       "skills/foo/ NOT FOUND"] ∧
    (mainRun exInputSkillExt).total.errors.length = 4 ∧
    (mainRun exInputSkillExt).total.fixes =
      [⟨"Fix path to \"./skills/foo\"", .pathFormat "skills" "./skills/foo.md" "./skills/foo"⟩,
       ⟨"Convert ./skills/foo.md to directory structure", .skillStructure "./skills/foo.md"⟩,
       ⟨"Fix path to \"./skills/foo\"", .pathFormat "skills" "./skills/foo.md" "./skills/foo"⟩,
       ⟨"Create skills/foo/ with SKILL.md", .createSkillStub ["skills", "foo"] "foo"⟩] ∧
    applyFix (.pathFormat "skills" "./skills/foo.md" "./skills/foo")
      ⟨exManifestSkillExt, exFsSkillFile⟩ = some ⟨exManifestSkillFixed, exFsSkillFile⟩ ∧
    applyFix (.skillStructure "./skills/foo.md")
      ⟨exManifestSkillFixed, exFsSkillFile⟩ = some ⟨exManifestSkillFixed, exFsSkillConverted⟩ ∧
    (mainRun exInputSkillFixed).total.errors = [] ∧
    (mainRun exInputSkillFixed).exit = 0 ∧
    (mainRun exInputBadExtNoDir).total.errors =
      ["[E003] plugins[0].commands[0] \"./commands/foo\" must end with .md",
       "[E012] commands: \"./commands/foo\" not found at commands/foo"] ∧
    (mainRun exInputBadExtNoDir).total.errors.length = 2 := by
  have hglob : FS.globMdStems ⟨[(["commands", name ++ ".md"], c)], [["commands"]]⟩ ["commands"] = [name] := by
    simp [FS.globMdStems, under1?, hmd, hstem]
  have lkc : ∀ v : J, List.lookup "commands"
      [("name", J.str "my-plugin"), ("source", J.str "./"), ("commands", v)] = some v := fun _ => rfl
  have lka : ∀ v : J, List.lookup "agents"
      [("name", J.str "my-plugin"), ("source", J.str "./"), ("commands", v)] = none := fun _ => rfl
  have lks : ∀ v : J, List.lookup "skills"
      [("name", J.str "my-plugin"), ("source", J.str "./"), ("commands", v)] = none := fun _ => rfl
  have lkh : ∀ v : J, List.lookup "hooks"
      [("name", J.str "my-plugin"), ("source", J.str "./"), ("commands", v)] = none := fun _ => rfl
  have hstep1 : regCommandStep ["commands"] ⟨[(["commands", name ++ ".md"], c)], [["commands"]]⟩
      ("./commands/" ++ name) =
      ({ errors := ["Command path \"" ++ ("./commands/" ++ name) ++
            "\" missing .md extension (plugin system will fail to load)"],
         fixes := [⟨"Fix path to \"" ++ (("./commands/" ++ name) ++ ".md") ++ "\"",
           .pathFormat "commands" ("./commands/" ++ name) (("./commands/" ++ name) ++ ".md")⟩] },
       name) := by
    simp [regCommandStep, hext, hrep1, hsp3, FS.pathExists, FS.isFile, FS.fileContent,
      List.lookup, VR.merge, VR.errFix]
  have hstep2 : regCommandStep ["commands"] ⟨[(["commands", name ++ ".md"], c)], [["commands"]]⟩
      (("./commands/" ++ name) ++ ".md") =
      ({ passed := ["commands/" ++ name ++ ".md registered and exists"] }, name) := by
    simp [regCommandStep, hmd2, hrep2, hsp3, FS.pathExists, FS.isFile, FS.fileContent,
      List.lookup, VR.merge, VR.pass]
  have hentry2 : checkCommandEntry "plugins[0]" 0 (.str (("./commands/" ++ name) ++ ".md")) = {} := by
    simp [checkCommandEntry, hsw2, hmd2, VR.merge]
  have hitem2 : clItemCheck ⟨[(["commands", name ++ ".md"], c)], [["commands"]]⟩ [] "commands"
      (.str (("./commands/" ++ name) ++ ".md")) =
      { passed := ["commands: \"" ++ (("./commands/" ++ name) ++ ".md") ++ "\" exists"] } := by
    simp [clItemCheck, hls2, hspl2, FS.pathExists, FS.isFile, FS.isDir, FS.fileContent,
      List.lookup, VR.pass]
  have lkaA : ∀ v : J, List.lookup "agents"
      [("name", J.str "my-plugin"), ("source", J.str "./"), ("agents", v)] = some v := fun _ => rfl
  have lkcA : ∀ v : J, List.lookup "commands"
      [("name", J.str "my-plugin"), ("source", J.str "./"), ("agents", v)] = none := fun _ => rfl
  have lksA : ∀ v : J, List.lookup "skills"
      [("name", J.str "my-plugin"), ("source", J.str "./"), ("agents", v)] = none := fun _ => rfl
  have lkhA : ∀ v : J, List.lookup "hooks"
      [("name", J.str "my-plugin"), ("source", J.str "./"), ("agents", v)] = none := fun _ => rfl
  have lksS : ∀ v : J, List.lookup "skills"
      [("name", J.str "my-plugin"), ("source", J.str "./"), ("skills", v)] = some v := fun _ => rfl
  have lkcS : ∀ v : J, List.lookup "commands"
      [("name", J.str "my-plugin"), ("source", J.str "./"), ("skills", v)] = none := fun _ => rfl
  have lkaS : ∀ v : J, List.lookup "agents"
      [("name", J.str "my-plugin"), ("source", J.str "./"), ("skills", v)] = none := fun _ => rfl
  have lkhS : ∀ v : J, List.lookup "hooks"
      [("name", J.str "my-plugin"), ("source", J.str "./"), ("skills", v)] = none := fun _ => rfl
  refine ⟨?_, ?_, ?_, ?_, ?_, ?_, ?_, ?_, ?_, rfl, rfl, rfl, rfl, rfl, rfl, rfl, rfl, rfl⟩
  · simp [validate_path_arrays, checkCommandEntry, checkHooksField, hsw1, hext,
      lkc, lka, lks, lkh, J.getD, J.lookup, J.arrList, List.enum, VR.mergeAll, VR.merge, VR.errFix]
    apply strData
    simp [format_error, E003, String.data_append, show (toString (0:Nat)) = "0" from rfl]
  · simp [validate_registration, fsOneCmd, hglob, hstep1, J.getD, J.lookup, J.strList,
      lkc, lka, lks, VR.mergeAll, VR.merge, FS.pathExists, FS.isFile, FS.isDir,
      FS.fileContent, FS.childDirNames, List.lookup]
  · simp [clItemCheck, fsOneCmd, hls1, hspl1, FS.pathExists, FS.isFile, FS.isDir,
      FS.fileContent, List.lookup, hne, VR.err]
    apply strData
    simp [format_error, E012, String.data_append]
  · simp [fix_path_format, marketBadExt, marketAfterPathFix, pluginAfterPathFix,
      pathFormatPlugin, replaceFirstPath, mapMO, J.lookup, J.setKey, setFields, List.lookup, lkc]
  · simp [validate_path_arrays, hentry2, pluginAfterPathFix, J.getD, J.lookup,
      lkc, lka, lks, lkh, checkHooksField, VR.mergeAll, VR.merge, J.arrList, List.enum]
  · simp [validate_registration, fsOneCmd, hglob, hstep2, pluginAfterPathFix, J.getD, J.lookup,
      J.strList, lkc, lka, lks, VR.mergeAll, VR.merge, FS.pathExists, FS.isFile, FS.isDir,
      FS.fileContent, FS.childDirNames]
  · have hpl : jPluginsList (marketAfterPathFix name) = [pluginAfterPathFix name] := rfl
    have her : clEffectiveRoot (pluginAfterPathFix name) = [] := rfl
    have hmis : clMisplacedCheck ⟨[(["commands", name ++ ".md"], c)], [["commands"]]⟩ = {} := rfl
    have hcit : clItems (pluginAfterPathFix name) "commands" =
        [.str (("./commands/" ++ name) ++ ".md")] := rfl
    have hait : clItems (pluginAfterPathFix name) "agents" = [] := rfl
    have hsit : clItems (pluginAfterPathFix name) "skills" = [] := rfl
    have hhit : clItems (pluginAfterPathFix name) "hooks" = [] := rfl
    simp [validate_component_locations, hpl, her, hmis, hcit, hait, hsit, hhit, hitem2,
      COMPONENT_TYPES, fsOneCmd, VR.mergeAll, VR.merge]
  · simp [validate_path_arrays, checkAgentEntry, checkHooksField, hswa, hexta,
      lkaA, lkcA, lksA, lkhA, J.getD, J.lookup, J.arrList, List.enum, VR.mergeAll, VR.merge, VR.errFix]
    apply strData
    simp [format_error, E004, String.data_append, show (toString (0:Nat)) = "0" from rfl]
  · simp [validate_path_arrays, checkSkillEntry, checkHooksField, hsksw, hskmd, hskcorr,
      lksS, lkcS, lkaS, lkhS, J.getD, J.lookup, J.arrList, List.enum, VR.mergeAll, VR.merge, VR.errFix]
    apply strData
    simp [format_error, E002, String.data_append, show (toString (0:Nat)) = "0" from rfl]

/-- C4 (witness): the amended Fix cycle at the concrete command `foo`. -/
theorem C4_wrong_extension_fix_cycle_witness :
    fix_path_format (marketBadExt "foo") "commands" ("./commands/" ++ "foo")
      (("./commands/" ++ "foo") ++ ".md") = some (marketAfterPathFix "foo") :=
  (C4_wrong_extension_fix_cycle "foo" "# foo\n"
    rfl rfl rfl rfl rfl rfl rfl rfl rfl rfl rfl rfl rfl rfl rfl rfl rfl rfl rfl).2.2.2.1
